import Mathlib

/-!
Verification of the ELD trip planner backend (HOS scheduling core).

This file gives a shallow embedding, over exact rational arithmetic, of the
trip-planning core found in src/trips/services/hos_service.py and
src/trips/services/eld_service.py, and proves properties of it.

Modelling conventions:
* Timestamps are rationals measuring hours; a Python datetime corresponds to
  the number of hours since some fixed midnight, so that midnight flooring
  (datetime.replace(hour=0, minute=0, second=0, microsecond=0)) is
  24 * floor(t / 24), the hour attribute of a datetime t is
  floor(60 * t) / 60 truncated into a day, and timedelta arithmetic is
  rational addition.
* Python float arithmetic is modelled by exact rational arithmetic;
  round(x, 2) is modelled by round-half-up at two decimals (the properties
  proved below depend only on monotonicity and on values on the minute grid,
  where no representation artifacts arise).
* Free-text fields (location labels, remark strings, formatted HH:MM clock
  strings, addresses inside the locations mapping) are omitted from the
  embedded records: no verified property observes them.  Stop kinds and duty
  status strings, which the properties do observe, are kept verbatim.
* The locations mapping is modelled by optional pickup/dropoff coordinates;
  a missing entry yields the same (0, 0) fallback as dict.get in the source.
* The while-loop of calculate_trip_plan is embedded as a guard-first fueled
  loop; the fuel only bounds the number of iterations, and exhausting it
  yields Option.none.  The source body raises no exception.
-/

set_option maxHeartbeats 1000000

/-- Driver duty status (hos_service.py, class DutyStatus). -/
inductive DutyStatus where
  | off_duty
  | sleeper_berth
  | driving
  | on_duty_not_driving
deriving DecidableEq, Repr

/-- The status string, mirroring the .value of the Python enum. -/
def DutyStatus.value : DutyStatus → String
  | .off_duty => "off_duty"
  | .sleeper_berth => "sleeper_berth"
  | .driving => "driving"
  | .on_duty_not_driving => "on_duty_not_driving"

/-- A period of a specific duty status (hos_service.py, class DutyPeriod).
Location and remark strings omitted (not observed by any property). -/
structure DutyPeriod where
  status : DutyStatus
  start_time : ℚ
  end_time : ℚ
deriving DecidableEq, Repr

/-- duration_hours property of DutyPeriod. -/
def DutyPeriod.duration_hours (p : DutyPeriod) : ℚ :=
  p.end_time - p.start_time

/-- A planned stop (hos_service.py, class PlannedStop).  The stop_type
string is one of "rest", "break", "fuel", "pickup", "dropoff".  Location
label and remark strings omitted. -/
structure PlannedStop where
  stop_type : String
  latitude : ℚ
  longitude : ℚ
  arrival_time : ℚ
  departure_time : ℚ
  duration_hours : ℚ
  miles_from_start : ℚ
  day_number : ℕ
deriving DecidableEq, Repr

/-- Summary of HOS for a single day (hos_service.py, class DailyHOSSummary). -/
structure DailyHOSSummary where
  date : ℚ
  day_number : ℕ
  driving_hours : ℚ := 0
  on_duty_hours : ℚ := 0
  off_duty_hours : ℚ := 0
  sleeper_berth_hours : ℚ := 0
  miles_driven : ℚ := 0
  duty_periods : List DutyPeriod := []
deriving DecidableEq, Repr

/-- total_hours property of DailyHOSSummary. -/
def DailyHOSSummary.total_hours (s : DailyHOSSummary) : ℚ :=
  s.driving_hours + s.on_duty_hours + s.off_duty_hours + s.sleeper_berth_hours

/-- Complete HOS plan for a trip (hos_service.py, class HOSPlan). -/
structure HOSPlan where
  planned_stops : List PlannedStop
  daily_summaries : List DailyHOSSummary
  total_driving_hours : ℚ
  total_on_duty_hours : ℚ
  total_trip_days : ℕ
  departure_time : ℚ
  arrival_time : ℚ
  cycle_hours_remaining : ℚ
deriving DecidableEq, Repr

/-- Configuration for HOS rules (hos_service.py, class HOSConfig). -/
structure HOSConfig where
  cycle_days : ℕ := 8
  cycle_hours : ℚ := 70
  max_driving_hours : ℚ := 11
  max_on_duty_hours : ℚ := 14
  break_required_after_hours : ℚ := 8
  break_duration_hours : ℚ := 1/2
  off_duty_reset_hours : ℚ := 10
  restart_hours : ℚ := 34
  fuel_interval_miles : ℚ := 1000
  fuel_stop_duration_hours : ℚ := 1/2
  pickup_duration_hours : ℚ := 1
  dropoff_duration_hours : ℚ := 1
  average_speed_mph : ℚ := 55
deriving DecidableEq, Repr

/-- The default configuration (all dataclass defaults). -/
def defaultConfig : HOSConfig := {}

/-- Optional pickup/dropoff coordinates from the locations mapping passed to
calculate_trip_plan (addresses omitted; a missing entry gives the same
fallback coordinates (0, 0) as dict.get in the source). -/
structure Locations where
  pickup : Option (ℚ × ℚ) := none
  dropoff : Option (ℚ × ℚ) := none
deriving DecidableEq, Repr

/-- The caller-supplied arguments of calculate_trip_plan. -/
structure TripInput where
  total_distance_miles : ℚ
  pickup_miles_from_start : ℚ
  current_cycle_used_hours : ℚ
  departure_time : ℚ
  locations : Locations := {}
  route_coordinates : List (ℚ × ℚ) := []
  adverse_conditions : Bool := false
  short_haul_cdl : Bool := false
  split_sleeper : Bool := false
deriving DecidableEq, Repr

/-- Midnight flooring: datetime.replace(hour=0, minute=0, second=0,
microsecond=0) on a timestamp measured in hours. -/
def floor24 (t : ℚ) : ℚ := 24 * (⌊t / 24⌋ : ℚ)

/-- hos_service.py _get_location_at_miles: approximate coordinates at a given
mile marker.  int() truncation on the (nonnegative, in this branch)
percentage * (len - 1) is modelled by Int.floor; the final dictionary access
route_coordinates[index] is modelled by getD with the clamped index. -/
def get_location_at_miles (route_coordinates : List (ℚ × ℚ))
    (target_miles total_miles : ℚ) : ℚ × ℚ :=
  match route_coordinates with
  | [] => (0, 0)
  | c :: rest =>
    if target_miles ≤ 0 then c
    else if target_miles ≥ total_miles then (c :: rest).getLast (by simp)
    else
      let percentage : ℚ := target_miles / total_miles
      let index : ℤ := ⌊percentage * (((c :: rest).length : ℤ) - 1 : ℤ)⌋
      let clamped : ℤ := max 0 (min index (((c :: rest).length : ℤ) - 1))
      (c :: rest).getD clamped.toNat (0, 0)

/-- The clamped interpolation index used by _get_location_at_miles in its
final branch (0 < target_miles < total_miles). -/
def interp_index (n : ℕ) (target_miles total_miles : ℚ) : ℤ :=
  max 0 (min ⌊target_miles / total_miles * ((n : ℤ) - 1 : ℤ)⌋ ((n : ℤ) - 1))

/-- hos_service.py _create_break_stop. -/
def create_break_stop (cfg : HOSConfig) (current_time current_miles : ℚ)
    (day_number : ℕ) (route_coordinates : List (ℚ × ℚ)) (total_miles : ℚ) :
    PlannedStop :=
  let coords := get_location_at_miles route_coordinates current_miles total_miles
  { stop_type := "break"
    latitude := coords.1
    longitude := coords.2
    arrival_time := current_time
    departure_time := current_time + cfg.break_duration_hours
    duration_hours := cfg.break_duration_hours
    miles_from_start := current_miles
    day_number := day_number }

/-- hos_service.py _create_rest_stop. -/
def create_rest_stop (cfg : HOSConfig) (current_time current_miles : ℚ)
    (day_number : ℕ) (route_coordinates : List (ℚ × ℚ)) (total_miles : ℚ) :
    PlannedStop :=
  let coords := get_location_at_miles route_coordinates current_miles total_miles
  { stop_type := "rest"
    latitude := coords.1
    longitude := coords.2
    arrival_time := current_time
    departure_time := current_time + cfg.off_duty_reset_hours
    duration_hours := cfg.off_duty_reset_hours
    miles_from_start := current_miles
    day_number := day_number }

/-- hos_service.py _create_fuel_stop. -/
def create_fuel_stop (cfg : HOSConfig) (current_time current_miles : ℚ)
    (day_number : ℕ) (route_coordinates : List (ℚ × ℚ)) (total_miles : ℚ) :
    PlannedStop :=
  let coords := get_location_at_miles route_coordinates current_miles total_miles
  { stop_type := "fuel"
    latitude := coords.1
    longitude := coords.2
    arrival_time := current_time
    departure_time := current_time + cfg.fuel_stop_duration_hours
    duration_hours := cfg.fuel_stop_duration_hours
    miles_from_start := current_miles
    day_number := day_number }

/-- The first element (7h sleeper berth, stop_type "rest") built by
hos_service.py _create_split_sleeper_pair. -/
def split_sleeper_stop0 (current_time current_miles : ℚ) (day_number : ℕ)
    (route_coordinates : List (ℚ × ℚ)) (total_miles : ℚ) : PlannedStop :=
  let coords := get_location_at_miles route_coordinates current_miles total_miles
  { stop_type := "rest"
    latitude := coords.1
    longitude := coords.2
    arrival_time := current_time
    departure_time := current_time + 7
    duration_hours := 7
    miles_from_start := current_miles
    day_number := day_number }

/-- The second element (3h off duty, stop_type "break") built by
hos_service.py _create_split_sleeper_pair. -/
def split_sleeper_stop1 (current_time current_miles : ℚ) (day_number : ℕ)
    (route_coordinates : List (ℚ × ℚ)) (total_miles : ℚ) : PlannedStop :=
  let coords := get_location_at_miles route_coordinates current_miles total_miles
  { stop_type := "break"
    latitude := coords.1
    longitude := coords.2
    arrival_time := current_time + 7
    departure_time := current_time + 7 + 3
    duration_hours := 3
    miles_from_start := current_miles
    day_number := day_number }

/-- hos_service.py _create_split_sleeper_pair: a 7h sleeper-berth stop
(stop_type "rest") followed immediately by a 3h off-duty stop
(stop_type "break"). -/
def create_split_sleeper_pair (current_time current_miles : ℚ)
    (day_number : ℕ) (route_coordinates : List (ℚ × ℚ)) (total_miles : ℚ) :
    List PlannedStop :=
  [split_sleeper_stop0 current_time current_miles day_number
    route_coordinates total_miles,
   split_sleeper_stop1 current_time current_miles day_number
    route_coordinates total_miles]

/-- The mutable locals of the while-loop of calculate_trip_plan, as one
state record (planned_stops and all_duty_periods are the accumulating
result lists of the enclosing scope). -/
structure SimState where
  current_time : ℚ
  current_miles : ℚ
  driving_since_break : ℚ
  driving_today : ℚ
  on_duty_window_start : ℚ
  cycle_hours_used : ℚ
  miles_since_fuel : ℚ
  passed_pickup : Bool
  current_day_number : ℕ
  planned_stops : List PlannedStop
  all_duty_periods : List DutyPeriod
deriving DecidableEq, Repr

/-- The initial simulation state of calculate_trip_plan. -/
def initState (i : TripInput) : SimState :=
  { current_time := i.departure_time
    current_miles := 0
    driving_since_break := 0
    driving_today := 0
    on_duty_window_start := i.departure_time
    cycle_hours_used := i.current_cycle_used_hours
    miles_since_fuel := 0
    passed_pickup := false
    current_day_number := 1
    planned_stops := []
    all_duty_periods := [] }

/-- Loop step 1: the 30-minute break check (hos_service.py lines 217-232).
The first argument is break_required_after, which is float(inf) under the
short-haul exemption, modelled as Option.none. -/
def apply_break_check (cfg : HOSConfig) (bra : Option ℚ) (i : TripInput)
    (st : SimState) : SimState :=
  match bra with
  | none => st
  | some b =>
    if st.driving_since_break ≥ b then
      let stop := create_break_stop cfg st.current_time st.current_miles
        st.current_day_number i.route_coordinates i.total_distance_miles
      { st with
        planned_stops := st.planned_stops ++ [stop]
        all_duty_periods := st.all_duty_periods ++
          [{ status := .off_duty, start_time := stop.arrival_time,
             end_time := stop.departure_time }]
        current_time := stop.departure_time
        driving_since_break := 0 }
    else st

/-- The shared split-sleeper branch body of loop steps 2 and 3
(hos_service.py lines 236-263 and 287-312): append the 7h + 3h pair,
advance the clock past it, reset the since-break counter, and advance the
window start by the total pair duration. -/
def apply_split_sleeper_pair (i : TripInput) (st : SimState) : SimState :=
  let pair := create_split_sleeper_pair st.current_time st.current_miles
    st.current_day_number i.route_coordinates i.total_distance_miles
  let p0 := split_sleeper_stop0 st.current_time st.current_miles
    st.current_day_number i.route_coordinates i.total_distance_miles
  let p1 := split_sleeper_stop1 st.current_time st.current_miles
    st.current_day_number i.route_coordinates i.total_distance_miles
  { st with
    planned_stops := st.planned_stops ++ pair
    all_duty_periods := st.all_duty_periods ++
      [{ status := .sleeper_berth, start_time := p0.arrival_time,
         end_time := p0.departure_time },
       { status := .off_duty, start_time := p1.arrival_time,
         end_time := p1.departure_time }]
    current_time := p1.departure_time
    driving_since_break := 0
    on_duty_window_start :=
      st.on_duty_window_start + (p0.duration_hours + p1.duration_hours) }

/-- The shared full-rest branch body of loop steps 2 and 3 (hos_service.py
lines 264-282 and 313-331): append a 10h rest stop, advance the day number,
reset the driving counters, and restart the window. -/
def apply_full_rest (cfg : HOSConfig) (i : TripInput) (st : SimState) :
    SimState :=
  let stop := create_rest_stop cfg st.current_time st.current_miles
    st.current_day_number i.route_coordinates i.total_distance_miles
  { st with
    planned_stops := st.planned_stops ++ [stop]
    all_duty_periods := st.all_duty_periods ++
      [{ status := .sleeper_berth, start_time := stop.arrival_time,
         end_time := stop.departure_time }]
    current_time := stop.departure_time
    current_day_number := st.current_day_number + 1
    driving_today := 0
    driving_since_break := 0
    on_duty_window_start := stop.departure_time }

/-- Loop step 2: the 11-hour driving-limit check (hos_service.py lines
235-282).  max_drive is the possibly adverse-adjusted driving cap. -/
def apply_driving_limit_check (cfg : HOSConfig) (max_drive : ℚ)
    (i : TripInput) (st : SimState) : SimState :=
  if st.driving_today ≥ max_drive then
    if i.split_sleeper then apply_split_sleeper_pair i st
    else apply_full_rest cfg i st
  else st

/-- Loop step 3: the 14-hour on-duty-window check (hos_service.py lines
284-331).  Returns the new state together with the hours_on_duty local
computed at line 285, which flows (possibly stale) into later steps. -/
def apply_window_check (cfg : HOSConfig) (max_window : ℚ) (i : TripInput)
    (st : SimState) : SimState × ℚ :=
  let hours_on_duty := st.current_time - st.on_duty_window_start
  if hours_on_duty ≥ max_window then
    if i.split_sleeper then (apply_split_sleeper_pair i st, hours_on_duty)
    else (apply_full_rest cfg i st, hours_on_duty)
  else (st, hours_on_duty)

/-- Loop step 4: the 70-hour cycle check with 34-hour restart
(hos_service.py lines 334-363). -/
def apply_cycle_check (cfg : HOSConfig) (i : TripInput) (st : SimState) :
    SimState :=
  if st.cycle_hours_used ≥ cfg.cycle_hours then
    let coords := get_location_at_miles i.route_coordinates st.current_miles
      i.total_distance_miles
    let restart_end := st.current_time + cfg.restart_hours
    { st with
      planned_stops := st.planned_stops ++
        [{ stop_type := "rest"
           latitude := coords.1
           longitude := coords.2
           arrival_time := st.current_time
           departure_time := restart_end
           duration_hours := cfg.restart_hours
           miles_from_start := st.current_miles
           day_number := st.current_day_number }]
      all_duty_periods := st.all_duty_periods ++
        [{ status := .off_duty, start_time := st.current_time,
           end_time := restart_end }]
      current_time := restart_end
      current_day_number := st.current_day_number + (⌊cfg.restart_hours / 24⌋).toNat
      driving_today := 0
      driving_since_break := 0
      on_duty_window_start := restart_end
      cycle_hours_used := 0 }
  else st

/-- Loop step 5: the fuel-stop check (hos_service.py lines 366-382).
Recomputes hours_on_duty when it fires. -/
def apply_fuel_check (cfg : HOSConfig) (i : TripInput)
    (sh : SimState × ℚ) : SimState × ℚ :=
  let st := sh.1
  if st.miles_since_fuel ≥ cfg.fuel_interval_miles then
    let stop := create_fuel_stop cfg st.current_time st.current_miles
      st.current_day_number i.route_coordinates i.total_distance_miles
    let st1 :=
      { st with
        planned_stops := st.planned_stops ++ [stop]
        all_duty_periods := st.all_duty_periods ++
          [{ status := .on_duty_not_driving, start_time := stop.arrival_time,
             end_time := stop.departure_time }]
        current_time := stop.departure_time
        miles_since_fuel := 0 }
    (st1, st1.current_time - st1.on_duty_window_start)
  else sh

/-- Loop step 6: the pickup-arrival check (hos_service.py lines 385-410).
Recomputes hours_on_duty when it fires. -/
def apply_pickup_check (cfg : HOSConfig) (i : TripInput)
    (sh : SimState × ℚ) : SimState × ℚ :=
  let st := sh.1
  if ¬ st.passed_pickup ∧ st.current_miles ≥ i.pickup_miles_from_start then
    let coords := (i.locations.pickup.getD (0, 0))
    let stop : PlannedStop :=
      { stop_type := "pickup"
        latitude := coords.1
        longitude := coords.2
        arrival_time := st.current_time
        departure_time := st.current_time + cfg.pickup_duration_hours
        duration_hours := cfg.pickup_duration_hours
        miles_from_start := i.pickup_miles_from_start
        day_number := st.current_day_number }
    let st1 :=
      { st with
        planned_stops := st.planned_stops ++ [stop]
        all_duty_periods := st.all_duty_periods ++
          [{ status := .on_duty_not_driving, start_time := stop.arrival_time,
             end_time := stop.departure_time }]
        current_time := stop.departure_time
        passed_pickup := true }
    (st1, st1.current_time - st1.on_duty_window_start)
  else sh

/-- The drivable mileage for the drive segment (hos_service.py lines
412-436): the minimum of the remaining 11-hour, break, and 14-hour budgets
converted to miles, clipped at the pickup point, the total distance, and
the fuel-interval boundary. -/
def drive_segment_miles (cfg : HOSConfig) (bra : Option ℚ)
    (max_drive max_window : ℚ) (i : TripInput) (st : SimState)
    (hours_on_duty : ℚ) : ℚ :=
  let remaining_drive_time_11h := max_drive - st.driving_today
  let hours_until_14h := max_window - hours_on_duty
  let drive_time_limit :=
    match bra with
    | none => min remaining_drive_time_11h hours_until_14h
    | some b =>
      min (min remaining_drive_time_11h (b - st.driving_since_break))
        hours_until_14h
  let m1 := drive_time_limit * cfg.average_speed_mph
  let m2 :=
    if ¬ st.passed_pickup ∧ st.current_miles + m1 ≥ i.pickup_miles_from_start
    then i.pickup_miles_from_start - st.current_miles else m1
  let m3 :=
    if st.current_miles + m2 ≥ i.total_distance_miles
    then i.total_distance_miles - st.current_miles else m2
  if st.miles_since_fuel + m3 ≥ cfg.fuel_interval_miles
  then cfg.fuel_interval_miles - st.miles_since_fuel else m3

/-- Loop step 7: drive the computed segment if it is positive
(hos_service.py lines 439-461). -/
def apply_drive_segment (cfg : HOSConfig) (bra : Option ℚ)
    (max_drive max_window : ℚ) (i : TripInput) (sh : SimState × ℚ) :
    SimState :=
  let st := sh.1
  let m := drive_segment_miles cfg bra max_drive max_window i st sh.2
  if m > 0 then
    let drive_hours := m / cfg.average_speed_mph
    let drive_end_time := st.current_time + drive_hours
    { st with
      all_duty_periods := st.all_duty_periods ++
        [{ status := .driving, start_time := st.current_time,
           end_time := drive_end_time }]
      current_time := drive_end_time
      current_miles := st.current_miles + m
      miles_since_fuel := st.miles_since_fuel + m
      driving_today := st.driving_today + drive_hours
      driving_since_break := st.driving_since_break + drive_hours
      cycle_hours_used := st.cycle_hours_used + drive_hours }
  else st

/-- The adverse-adjusted driving cap (hos_service.py line 209). -/
def max_drive_hours_today (cfg : HOSConfig) (i : TripInput) : ℚ :=
  cfg.max_driving_hours + (if i.adverse_conditions then 2 else 0)

/-- The adverse-adjusted on-duty-window cap (hos_service.py line 210). -/
def max_on_duty_window_today (cfg : HOSConfig) (i : TripInput) : ℚ :=
  cfg.max_on_duty_hours + (if i.adverse_conditions then 2 else 0)

/-- break_required_after (hos_service.py line 211); none models float(inf)
under the short-haul exemption. -/
def break_required_after (cfg : HOSConfig) (i : TripInput) : Option ℚ :=
  if i.short_haul_cdl then none else some cfg.break_required_after_hours

/-- One full iteration of the while-loop body of calculate_trip_plan:
steps 1-7 in the fixed source order. -/
def step (cfg : HOSConfig) (i : TripInput) (st : SimState) : SimState :=
  let bra := break_required_after cfg i
  let maxD := max_drive_hours_today cfg i
  let maxW := max_on_duty_window_today cfg i
  let st1 := apply_break_check cfg bra i st
  let st2 := apply_driving_limit_check cfg maxD i st1
  let sh3 := apply_window_check cfg maxW i st2
  let st4 := apply_cycle_check cfg i sh3.1
  let sh5 := apply_fuel_check cfg i (st4, sh3.2)
  let sh6 := apply_pickup_check cfg i sh5
  apply_drive_segment cfg bra maxD maxW i sh6

/-- A scheduling-inconsistency error, as postulated by the failure-semantics
section of the specification.  The source body of the loop contains no
raise statement, so its faithful embedding into this error-capable result
type never produces the error constructor. -/
inductive SchedulingError where
  | inconsistency
deriving DecidableEq, Repr

/-- The loop body embedded with an error channel available (Python can raise
exceptions; this body does not), used to state claims about abort
behaviour. -/
def step_result (cfg : HOSConfig) (i : TripInput) (st : SimState) :
    Except SchedulingError SimState :=
  Except.ok (step cfg i st)

/-- The while-loop of calculate_trip_plan (guard first), bounded by fuel;
Option.none means the iteration bound was exhausted. -/
def run_loop (cfg : HOSConfig) (i : TripInput) (fuel : ℕ) (st : SimState) :
    Option SimState :=
  if st.current_miles < i.total_distance_miles then
    match fuel with
    | 0 => none
    | n + 1 => run_loop cfg i n (step cfg i st)
  else some st

/-- Unfolding lemma: the loop exits as soon as the guard fails. -/
theorem run_loop_exit (cfg : HOSConfig) (i : TripInput) (fuel : ℕ)
    (st : SimState) (h : ¬ st.current_miles < i.total_distance_miles) :
    run_loop cfg i fuel st = some st := by
  rw [run_loop.eq_def, if_neg h]

/-- Unfolding lemma: one iteration of the loop under the guard. -/
theorem run_loop_succ (cfg : HOSConfig) (i : TripInput) (n : ℕ)
    (st : SimState) (h : st.current_miles < i.total_distance_miles) :
    run_loop cfg i (n + 1) st = run_loop cfg i n (step cfg i st) := by
  rw [run_loop.eq_def, if_pos h]

/-- Appending the unconditional dropoff stop after the loop (hos_service.py
lines 464-486; passed_dropoff is never set, so the guard is always taken). -/
def append_dropoff (cfg : HOSConfig) (i : TripInput) (st : SimState) :
    SimState :=
  let coords := (i.locations.dropoff.getD (0, 0))
  let stop : PlannedStop :=
    { stop_type := "dropoff"
      latitude := coords.1
      longitude := coords.2
      arrival_time := st.current_time
      departure_time := st.current_time + cfg.dropoff_duration_hours
      duration_hours := cfg.dropoff_duration_hours
      miles_from_start := i.total_distance_miles
      day_number := st.current_day_number }
  { st with
    planned_stops := st.planned_stops ++ [stop]
    all_duty_periods := st.all_duty_periods ++
      [{ status := .on_duty_not_driving, start_time := stop.arrival_time,
         end_time := stop.departure_time }]
    current_time := stop.departure_time }

/-- The per-period accumulation step of _build_daily_summaries
(hos_service.py lines 670-700): clip a period to the day window and add the
overlap to the matching status bucket. -/
def add_period_to_summary (cfg : HOSConfig) (day_start day_end : ℚ)
    (s : DailyHOSSummary) (p : DutyPeriod) : DailyHOSSummary :=
  if p.end_time ≤ day_start ∨ p.start_time ≥ day_end then s
  else
    let overlap_start := max p.start_time day_start
    let overlap_end := min p.end_time day_end
    let hours := overlap_end - overlap_start
    if hours > 0 then
      let s1 := { s with duty_periods := s.duty_periods ++
        [({ status := p.status, start_time := overlap_start,
            end_time := overlap_end } : DutyPeriod)] }
      match p.status with
      | .driving =>
        { s1 with driving_hours := s1.driving_hours + hours,
                  miles_driven := s1.miles_driven + hours * cfg.average_speed_mph }
      | .on_duty_not_driving =>
        { s1 with on_duty_hours := s1.on_duty_hours + hours }
      | .off_duty =>
        { s1 with off_duty_hours := s1.off_duty_hours + hours }
      | .sleeper_berth =>
        { s1 with sleeper_berth_hours := s1.sleeper_berth_hours + hours }
    else s

/-- One day of _build_daily_summaries (hos_service.py lines 659-707),
including the final fill of any shortfall below 24 hours into off-duty. -/
def build_one_day_summary (cfg : HOSConfig) (duty_periods : List DutyPeriod)
    (start_date : ℚ) (day_num : ℕ) : DailyHOSSummary :=
  let day_start := floor24 start_date + 24 * ((day_num : ℚ) - 1)
  let day_end := day_start + 24
  let s0 : DailyHOSSummary := { date := day_start, day_number := day_num }
  let s1 := duty_periods.foldl (add_period_to_summary cfg day_start day_end) s0
  let total := s1.total_hours
  if total < 24 then
    { s1 with off_duty_hours := s1.off_duty_hours + (24 - total) }
  else s1

/-- hos_service.py _build_daily_summaries: one summary per day_num in
range(1, total_days + 1). -/
def build_daily_summaries (cfg : HOSConfig) (duty_periods : List DutyPeriod)
    (start_date : ℚ) (total_days : ℕ) : List DailyHOSSummary :=
  (List.range total_days).map
    (fun k => build_one_day_summary cfg duty_periods start_date (k + 1))

/-- Sum of the durations of all driving periods (hos_service.py lines
494-497). -/
def total_driving_of (periods : List DutyPeriod) : ℚ :=
  ((periods.filter (fun p => p.status = .driving)).map
    DutyPeriod.duration_hours).sum

/-- Sum of the durations of all driving and on-duty-not-driving periods
(hos_service.py lines 498-501). -/
def total_on_duty_of (periods : List DutyPeriod) : ℚ :=
  ((periods.filter (fun p =>
    p.status = .driving ∨ p.status = .on_duty_not_driving)).map
    DutyPeriod.duration_hours).sum

/-- hos_service.py calculate_trip_plan, as a fueled function: runs the
simulation loop, appends the dropoff, builds the daily summaries and the
totals.  Option.none means the fuel bound was exhausted before the loop
terminated. -/
def calculate_trip_plan (cfg : HOSConfig) (i : TripInput) (fuel : ℕ) :
    Option HOSPlan :=
  (run_loop cfg i fuel (initState i)).map (fun stLoop =>
    let st := append_dropoff cfg i stLoop
    { planned_stops := st.planned_stops
      daily_summaries := build_daily_summaries cfg st.all_duty_periods
        i.departure_time st.current_day_number
      total_driving_hours := total_driving_of st.all_duty_periods
      total_on_duty_hours := total_on_duty_of st.all_duty_periods
      total_trip_days := st.current_day_number
      departure_time := i.departure_time
      arrival_time := st.current_time
      cycle_hours_remaining := cfg.cycle_hours - st.cycle_hours_used })

/-- hos_service.py validate_hos_compliance, violation count only (messages
are free text): a day violates if its driving hours exceed the driving cap
or its driving + on-duty hours exceed the on-duty cap. -/
def hos_violations (cfg : HOSConfig) (plan : HOSPlan) : ℕ :=
  (plan.daily_summaries.filter (fun s =>
    s.driving_hours > cfg.max_driving_hours ∨
    s.driving_hours + s.on_duty_hours > cfg.max_on_duty_hours)).length

/-! ## ELD log renderer (eld_service.py) -/

/-- A single rendered entry of the ELD log (eld_service.py, class
ELDLogEntry).  Formatted HH:MM clock strings and location/remark strings
omitted (no verified property observes them). -/
structure ELDLogEntry where
  start_hour : ℚ
  end_hour : ℚ
  duration_hours : ℚ
  duty_status : String
  duty_status_display : String
  grid_row : ℕ
deriving DecidableEq, Repr

/-- The GRID_ROWS string-keyed lookup with default 1, as used by
_create_log_entry via GRID_ROWS.get(status_str, 1).  (The enum-keyed
entries of the source dictionary are unreachable there, since the lookup
key is always a string.) -/
def grid_rows_get (status_str : String) : ℕ :=
  if status_str = "off_duty" then 1
  else if status_str = "sleeper_berth" then 2
  else if status_str = "driving" then 3
  else if status_str = "on_duty_not_driving" then 4
  else 1

/-- The DUTY_STATUS_DISPLAY lookup with the raw string as fallback, as used
by _create_log_entry via DUTY_STATUS_DISPLAY.get(status_str, status_str). -/
def duty_status_display_get (status_str : String) : String :=
  if status_str = "off_duty" then "Off Duty"
  else if status_str = "sleeper_berth" then "Sleeper Berth"
  else if status_str = "driving" then "Driving"
  else if status_str = "on_duty_not_driving" then "On Duty (Not Driving)"
  else status_str

/-- The decimal-hour value hour + minute / 60 of a timestamp t (in hours):
whole minutes since the midnight of the day of t, divided by 60. -/
def clock_hour (t : ℚ) : ℚ := (((⌊60 * t⌋ % 1440 : ℤ) : ℚ)) / 60

/-- Python round(x, 2), modelled as round-half-up at two decimals.  The
verified properties use only its monotonicity and its values on exactly
representable inputs, where the float tie-breaking of the source cannot
differ. -/
def round2 (x : ℚ) : ℚ := ((⌊100 * x + 1 / 2⌋ : ℤ) : ℚ) / 100

/-- The body of eld_service.py _create_log_entry after the status has been
converted to a string: decimal start/end hours with the midnight-wrap
adjustment, then rounding, plus the two dictionary lookups. -/
def create_log_entry_core (status_str : String) (start_time end_time : ℚ) :
    ELDLogEntry :=
  let start_hour := clock_hour start_time
  let end_hour0 := clock_hour end_time
  let end_hour := if end_hour0 < start_hour then 24 else end_hour0
  { start_hour := round2 start_hour
    end_hour := round2 end_hour
    duration_hours := round2 (end_time - start_time)
    duty_status := status_str
    duty_status_display := duty_status_display_get status_str
    grid_row := grid_rows_get status_str }

/-- eld_service.py _create_log_entry applied to a duty period (the
isinstance branch: the status string is the enum value). -/
def create_log_entry (p : DutyPeriod) : ELDLogEntry :=
  create_log_entry_core p.status.value p.start_time p.end_time

/-- The synthetic off-duty gap entry inserted by _fill_gaps between
current_hour and the next entry (or 24.0). -/
def gap_entry (from_hour to_hour : ℚ) : ELDLogEntry :=
  { start_hour := from_hour
    end_hour := to_hour
    duration_hours := round2 (to_hour - from_hour)
    duty_status := "off_duty"
    duty_status_display := "Off Duty"
    grid_row := 1 }

/-- The single full-day off-duty entry returned by _fill_gaps for an empty
entry list. -/
def full_day_off_entry : ELDLogEntry :=
  { start_hour := 0
    end_hour := 24
    duration_hours := 24
    duty_status := "off_duty"
    duty_status_display := "Off Duty"
    grid_row := 1 }

/-- The walking loop of eld_service.py _fill_gaps, with current_hour as the
accumulator, including the final fill up to 24.0. -/
def fill_gaps_walk (current_hour : ℚ) : List ELDLogEntry → List ELDLogEntry
  | [] => if current_hour < 24 then [gap_entry current_hour 24] else []
  | e :: rest =>
    (if e.start_hour > current_hour then [gap_entry current_hour e.start_hour]
     else []) ++ e :: fill_gaps_walk e.end_hour rest

/-- eld_service.py _fill_gaps. -/
def fill_gaps (entries : List ELDLogEntry) : List ELDLogEntry :=
  match entries with
  | [] => [full_day_off_entry]
  | e :: rest => fill_gaps_walk 0 (e :: rest)

/-- The entry pipeline of eld_service.py _generate_daily_log (lines
163-174): convert each day-scoped duty period to an entry, sort by start
hour (the stable sort of the source is modelled by the stable
List.insertionSort), and fill gaps. -/
def generate_daily_log_entries (summary : DailyHOSSummary) :
    List ELDLogEntry :=
  fill_gaps
    (List.insertionSort (fun a b => a.start_hour ≤ b.start_hour)
      (summary.duty_periods.map create_log_entry))

/-! ## Concrete inputs used by witnesses and counterexamples -/

/-- A zero-distance trip input. -/
def zeroDistInput : TripInput :=
  { total_distance_miles := 0
    pickup_miles_from_start := 0
    current_cycle_used_hours := 0
    departure_time := 0 }

/-- A trip input with a negative total distance. -/
def negDistInput : TripInput :=
  { total_distance_miles := -100
    pickup_miles_from_start := 0
    current_cycle_used_hours := 0
    departure_time := 0 }

/-- A configuration whose average speed is zero (HOSConfig allows arbitrary
values; all other fields are the dataclass defaults). -/
def zeroSpeedConfig : HOSConfig := { average_speed_mph := 0 }

/-- A 100-mile trip input with pickup at mile 50, departing at hour 0. -/
def plainInput : TripInput :=
  { total_distance_miles := 100
    pickup_miles_from_start := 50
    current_cycle_used_hours := 0
    departure_time := 0 }

/-- A 100-mile trip input departing at 23:00 (one hour before midnight). -/
def lateInput : TripInput :=
  { total_distance_miles := 100
    pickup_miles_from_start := 50
    current_cycle_used_hours := 0
    departure_time := 23 }

/-! ## C10: renderer entry construction is total over arbitrary status strings -/

/-- C10: for a duty period whose status string is not one of the four known
statuses, the log entry built by _create_log_entry gets grid_row 1 (the
off-duty row) and a display label equal to the raw status string; the
dictionary lookups never fail. -/
theorem C10_unknown_status_defaults (status_str : String)
    (start_time end_time : ℚ)
    (h1 : status_str ≠ "off_duty") (h2 : status_str ≠ "sleeper_berth")
    (h3 : status_str ≠ "driving") (h4 : status_str ≠ "on_duty_not_driving") :
    (create_log_entry_core status_str start_time end_time).grid_row = 1 ∧
    (create_log_entry_core status_str start_time end_time).duty_status_display
      = status_str := by
  simp [create_log_entry_core, grid_rows_get, duty_status_display_get,
    h1, h2, h3, h4]

/-- Witness for C10 at the concrete unknown status "yard_move". -/
theorem C10_unknown_status_defaults_witness :
    ("yard_move" ≠ "off_duty" ∧ "yard_move" ≠ "sleeper_berth" ∧
     "yard_move" ≠ "driving" ∧ "yard_move" ≠ "on_duty_not_driving") ∧
    ((create_log_entry_core "yard_move" 6 8).grid_row = 1 ∧
     (create_log_entry_core "yard_move" 6 8).duty_status_display
       = "yard_move") :=
  ⟨⟨by decide, by decide, by decide, by decide⟩,
   C10_unknown_status_defaults "yard_move" 6 8
     (by decide) (by decide) (by decide) (by decide)⟩

/-! ## C9: stop-location interpolation is total and safe -/

/-- C9: _get_location_at_miles is total: an empty coordinate list yields
(0, 0); for a nonempty list the clamped interpolation index is in range
[0, length - 1] and in the interpolation branch the result is the list
element at that index; the division by total_miles is only reached under
0 < target_miles < total_miles, where total_miles is nonzero. -/
theorem C9_interpolation_safe (coords : List (ℚ × ℚ)) (target total : ℚ) :
    (get_location_at_miles [] target total = (0, 0)) ∧
    (coords ≠ [] → 0 ≤ interp_index coords.length target total ∧
      (interp_index coords.length target total).toNat < coords.length) ∧
    (coords ≠ [] → 0 < target → target < total →
      get_location_at_miles coords target total =
        coords.getD (interp_index coords.length target total).toNat (0, 0)) ∧
    (0 < target → target < total → total ≠ 0) := by
  refine ⟨rfl, ?_, ?_, ?_⟩
  · intro hne
    cases coords with
    | nil => exact absurd rfl hne
    | cons c rest =>
      unfold interp_index
      have hlen : (1 : ℤ) ≤ ((c :: rest).length : ℤ) := by
        simp
      constructor
      · exact le_max_left _ _
      · have hub : max 0 (min ⌊target / total *
            (((c :: rest).length : ℤ) - 1 : ℤ)⌋ (((c :: rest).length : ℤ) - 1))
            ≤ ((c :: rest).length : ℤ) - 1 :=
          max_le (by omega) (min_le_right _ _)
        omega
  · intro hne h0 hlt
    cases coords with
    | nil => exact absurd rfl hne
    | cons c rest =>
      show (if target ≤ 0 then c
        else if target ≥ total then (c :: rest).getLast (by simp)
        else _) = _
      rw [if_neg (by linarith), if_neg (by linarith)]
      rfl
  · intro h0 hlt
    intro h
    rw [h] at hlt
    linarith

/-- Witness for C9 at a concrete three-point route. -/
theorem C9_interpolation_safe_witness :
    ([( (0:ℚ), (0:ℚ) ), (1, 1), (2, 2)] ≠ ([] : List (ℚ × ℚ))) ∧
    (0 ≤ interp_index 3 30 100 ∧ (interp_index 3 30 100).toNat < 3) ∧
    (get_location_at_miles [((0:ℚ), (0:ℚ)), (1, 1), (2, 2)] 30 100 =
      ([((0:ℚ), (0:ℚ)), (1, 1), (2, 2)]).getD (interp_index 3 30 100).toNat (0, 0)) ∧
    ((100 : ℚ) ≠ 0) := by
  have h := C9_interpolation_safe [((0:ℚ), (0:ℚ)), (1, 1), (2, 2)] 30 100
  exact ⟨by decide, h.2.1 (by decide),
    h.2.2.1 (by decide) (by norm_num) (by norm_num),
    h.2.2.2 (by norm_num) (by norm_num)⟩

/-! ## C8: zero-distance trips -/

/-- C8: for a zero-distance input (any in-range cycle hours and departure
time), the loop exits immediately and the plan contains exactly one dropoff
stop and no rest, break, or fuel stops, for every fuel bound. -/
theorem C8_zero_distance_single_dropoff (i : TripInput) (fuel : ℕ)
    (htot : i.total_distance_miles = 0)
    (hcyc0 : 0 ≤ i.current_cycle_used_hours)
    (hcyc1 : i.current_cycle_used_hours ≤ 70)
    (hdep : 0 ≤ i.departure_time) :
    ∃ plan, calculate_trip_plan defaultConfig i fuel = some plan ∧
      (plan.planned_stops.filter (fun s => s.stop_type = "dropoff")).length = 1 ∧
      (plan.planned_stops.filter (fun s => s.stop_type = "rest")).length = 0 ∧
      (plan.planned_stops.filter (fun s => s.stop_type = "break")).length = 0 ∧
      (plan.planned_stops.filter (fun s => s.stop_type = "fuel")).length = 0 := by
  have hloop : run_loop defaultConfig i fuel (initState i) = some (initState i) :=
    run_loop_exit _ _ _ _ (by simp [initState, htot])
  refine ⟨_, by rw [calculate_trip_plan, hloop]; rfl, ?_, ?_, ?_, ?_⟩
  all_goals
    simp [calculate_trip_plan, append_dropoff, initState]

/-- Witness for C8 at the concrete zero-distance input. -/
theorem C8_zero_distance_single_dropoff_witness :
    (zeroDistInput.total_distance_miles = 0 ∧
     0 ≤ zeroDistInput.current_cycle_used_hours ∧
     zeroDistInput.current_cycle_used_hours ≤ 70 ∧
     0 ≤ zeroDistInput.departure_time) ∧
    (∃ plan, calculate_trip_plan defaultConfig zeroDistInput 0 = some plan ∧
      (plan.planned_stops.filter (fun s => s.stop_type = "dropoff")).length = 1 ∧
      (plan.planned_stops.filter (fun s => s.stop_type = "rest")).length = 0 ∧
      (plan.planned_stops.filter (fun s => s.stop_type = "break")).length = 0 ∧
      (plan.planned_stops.filter (fun s => s.stop_type = "fuel")).length = 0) :=
  ⟨⟨by decide, by decide, by decide, by decide⟩,
   C8_zero_distance_single_dropoff zeroDistInput 0
     (by decide) (by decide) (by decide) (by decide)⟩

/-! ## C4: input-range validation (corrected) -/

/-- Counterexample to C4: for the concrete out-of-range input with total
distance -100, calculate_trip_plan does not reject the input; it produces
an HOSPlan (the function has no validation and no error path). -/
theorem C4_counterexample_no_validation :
    (negDistInput.total_distance_miles < 0) ∧
    (calculate_trip_plan defaultConfig negDistInput 0).isSome = true := by
  constructor
  · decide
  · decide

/-- C4 (amended): calculate_trip_plan performs no input-range validation;
for every input with negative total distance (and any cycle hours,
in range or not) it returns an HOSPlan for every fuel bound, instead of
failing with a validation error. -/
theorem C4_amended_no_rejection (i : TripInput) (fuel : ℕ)
    (h : i.total_distance_miles < 0) :
    ∃ plan, calculate_trip_plan defaultConfig i fuel = some plan := by
  have hloop : run_loop defaultConfig i fuel (initState i) = some (initState i) :=
    run_loop_exit _ _ _ _ (by simp [initState]; linarith)
  exact ⟨_, by rw [calculate_trip_plan, hloop]; rfl⟩

/-- Witness for the amended C4 at the concrete negative-distance input. -/
theorem C4_amended_no_rejection_witness :
    (negDistInput.total_distance_miles < 0) ∧
    (∃ plan, calculate_trip_plan defaultConfig negDistInput 3 = some plan) :=
  ⟨by decide, C4_amended_no_rejection negDistInput 3 (by decide)⟩

/-! ## C3: scheduling-inconsistency abort (corrected) -/

/-- Counterexample to C3: with a zero average speed configuration (a value
HOSConfig permits), the very first loop iteration fires no stop check and
computes a non-positive drivable distance, yet the engine does not abort
with a scheduling-inconsistency error: the iteration returns the state
unchanged (so the loop spins without progress until the fuel bound). -/
theorem C3_counterexample_no_abort :
    ((initState plainInput).current_miles < plainInput.total_distance_miles) ∧
    ((initState plainInput).driving_since_break <
       zeroSpeedConfig.break_required_after_hours) ∧
    ((initState plainInput).driving_today <
       max_drive_hours_today zeroSpeedConfig plainInput) ∧
    ((initState plainInput).current_time -
       (initState plainInput).on_duty_window_start <
       max_on_duty_window_today zeroSpeedConfig plainInput) ∧
    ((initState plainInput).cycle_hours_used < zeroSpeedConfig.cycle_hours) ∧
    ((initState plainInput).miles_since_fuel <
       zeroSpeedConfig.fuel_interval_miles) ∧
    ((initState plainInput).current_miles <
       plainInput.pickup_miles_from_start) ∧
    (drive_segment_miles zeroSpeedConfig
       (break_required_after zeroSpeedConfig plainInput)
       (max_drive_hours_today zeroSpeedConfig plainInput)
       (max_on_duty_window_today zeroSpeedConfig plainInput)
       plainInput (initState plainInput)
       ((initState plainInput).current_time -
        (initState plainInput).on_duty_window_start) ≤ 0) ∧
    step_result zeroSpeedConfig plainInput (initState plainInput) =
      Except.ok (initState plainInput) ∧
    run_loop zeroSpeedConfig plainInput 5 (initState plainInput) = none := by
  refine ⟨by with_unfolding_all decide, by with_unfolding_all decide,
    by with_unfolding_all decide, by with_unfolding_all decide,
    by with_unfolding_all decide, by with_unfolding_all decide,
    by with_unfolding_all decide, by with_unfolding_all decide,
    by with_unfolding_all rfl, by with_unfolding_all rfl⟩

/-- C3 (amended): when no stop check fires and the computed drivable
distance is non-positive, the engine does not abort: the iteration returns
Except.ok with the state unchanged, so the loop continues without progress;
moreover this situation forces a non-positive configured average speed, so
it cannot arise with the default configuration. -/
theorem C3_amended_silent_no_progress (cfg : HOSConfig) (i : TripInput)
    (st : SimState)
    (hmiles : st.current_miles < i.total_distance_miles)
    (hbreak : i.short_haul_cdl = false →
      st.driving_since_break < cfg.break_required_after_hours)
    (hdrive : st.driving_today < max_drive_hours_today cfg i)
    (hwin : st.current_time - st.on_duty_window_start <
      max_on_duty_window_today cfg i)
    (hcycle : st.cycle_hours_used < cfg.cycle_hours)
    (hfuel : st.miles_since_fuel < cfg.fuel_interval_miles)
    (hpick : st.passed_pickup = false →
      st.current_miles < i.pickup_miles_from_start)
    (hm : drive_segment_miles cfg (break_required_after cfg i)
      (max_drive_hours_today cfg i) (max_on_duty_window_today cfg i) i st
      (st.current_time - st.on_duty_window_start) ≤ 0) :
    step_result cfg i st = Except.ok st ∧ cfg.average_speed_mph ≤ 0 := by
  have h1 : apply_break_check cfg (break_required_after cfg i) i st = st := by
    unfold apply_break_check break_required_after
    cases hsh : i.short_haul_cdl with
    | true => simp [hsh]
    | false =>
      simp only [hsh, Bool.false_eq_true, if_false]
      rw [if_neg]
      exact not_le.mpr (hbreak hsh)
  have h2 : apply_driving_limit_check cfg (max_drive_hours_today cfg i) i st
      = st := by
    unfold apply_driving_limit_check
    rw [if_neg (not_le.mpr hdrive)]
  have h3 : apply_window_check cfg (max_on_duty_window_today cfg i) i st
      = (st, st.current_time - st.on_duty_window_start) := by
    unfold apply_window_check
    rw [if_neg (not_le.mpr hwin)]
  have h4 : apply_cycle_check cfg i st = st := by
    unfold apply_cycle_check
    rw [if_neg (not_le.mpr hcycle)]
  have h5 : apply_fuel_check cfg i
      (st, st.current_time - st.on_duty_window_start)
      = (st, st.current_time - st.on_duty_window_start) := by
    unfold apply_fuel_check
    rw [if_neg (not_le.mpr hfuel)]
  have h6 : apply_pickup_check cfg i
      (st, st.current_time - st.on_duty_window_start)
      = (st, st.current_time - st.on_duty_window_start) := by
    unfold apply_pickup_check
    rw [if_neg]
    simp only [not_and, Bool.not_eq_true]
    intro hnp
    exact not_le.mpr (hpick (by simpa using hnp))
  have h7 : apply_drive_segment cfg (break_required_after cfg i)
      (max_drive_hours_today cfg i) (max_on_duty_window_today cfg i) i
      (st, st.current_time - st.on_duty_window_start) = st := by
    unfold apply_drive_segment
    rw [if_neg (not_lt.mpr hm)]
  have hstep : step cfg i st = st := by
    unfold step
    simp only [h1, h2, h3, h4, h5, h6, h7]
  refine ⟨by rw [step_result, hstep], ?_⟩
  by_contra hps
  push_neg at hps
  unfold drive_segment_miles break_required_after at hm
  cases hsh : i.short_haul_cdl with
  | true =>
    simp only [hsh, if_true] at hm
    have hdtl : 0 < min (max_drive_hours_today cfg i - st.driving_today)
        (max_on_duty_window_today cfg i -
          (st.current_time - st.on_duty_window_start)) :=
      lt_min (by linarith) (by linarith)
    have hmul := mul_pos hdtl hps
    split_ifs at hm with hc1 hc2 hc3 hc2 hc3 hc3 hc3 <;>
      first
      | linarith
      | (have hp0 : st.passed_pickup = false := by
           rcases hc1 with ⟨hnp, _⟩
           simpa using hnp
         have := hpick hp0
         linarith)
  | false =>
    simp only [hsh, Bool.false_eq_true, if_false] at hm
    have hdtl : 0 < min (min (max_drive_hours_today cfg i - st.driving_today)
        (cfg.break_required_after_hours - st.driving_since_break))
        (max_on_duty_window_today cfg i -
          (st.current_time - st.on_duty_window_start)) :=
      lt_min (lt_min (by linarith) (by linarith [hbreak hsh])) (by linarith)
    have hmul := mul_pos hdtl hps
    split_ifs at hm with hc1 hc2 hc3 hc2 hc3 hc3 hc3 <;>
      first
      | linarith
      | (have hp0 : st.passed_pickup = false := by
           rcases hc1 with ⟨hnp, _⟩
           simpa using hnp
         have := hpick hp0
         linarith)

/-- Witness for the amended C3 at the zero-speed configuration. -/
theorem C3_amended_silent_no_progress_witness :
    (step_result zeroSpeedConfig plainInput (initState plainInput) =
      Except.ok (initState plainInput) ∧
      zeroSpeedConfig.average_speed_mph ≤ 0) :=
  C3_amended_silent_no_progress zeroSpeedConfig plainInput (initState plainInput)
    (by with_unfolding_all decide)
    (fun _ => by with_unfolding_all decide)
    (by with_unfolding_all decide)
    (by with_unfolding_all decide)
    (by with_unfolding_all decide)
    (by with_unfolding_all decide)
    (fun _ => by with_unfolding_all decide)
    (by with_unfolding_all decide)

/-- A split-sleeper trip input for the C5 witness. -/
def splitInput : TripInput :=
  { total_distance_miles := 1000
    pickup_miles_from_start := 50
    current_cycle_used_hours := 0
    departure_time := 0
    split_sleeper := true }

/-- A loop state that has reached both the driving cap and the window cap. -/
def atCapState : SimState :=
  { current_time := 15
    current_miles := 600
    driving_since_break := 3
    driving_today := 11
    on_duty_window_start := 0
    cycle_hours_used := 11
    miles_since_fuel := 600
    passed_pickup := true
    current_day_number := 1
    planned_stops := []
    all_duty_periods := [] }

/-! ## C5: split-sleeper exemption behaviour -/

/-- C5: with the split-sleeper flag set, reaching the driving cap (loop step
2) or the on-duty-window cap (loop step 3) inserts the 7h sleeper-berth
stop immediately followed by the 3h off-duty stop (instead of a single
10-hour rest), advances the on-duty-window start by exactly the 10-hour
pair total, and leaves the episode driving-hours counter and the day-number
counter unchanged.  The clock advances past the pair. -/
theorem C5_split_sleeper_behaviour (cfg : HOSConfig) (max_drive max_window : ℚ)
    (i : TripInput) (st : SimState) (hsplit : i.split_sleeper = true) :
    (create_split_sleeper_pair st.current_time st.current_miles
       st.current_day_number i.route_coordinates i.total_distance_miles =
       [split_sleeper_stop0 st.current_time st.current_miles
          st.current_day_number i.route_coordinates i.total_distance_miles,
        split_sleeper_stop1 st.current_time st.current_miles
          st.current_day_number i.route_coordinates i.total_distance_miles] ∧
     (split_sleeper_stop0 st.current_time st.current_miles
        st.current_day_number i.route_coordinates
        i.total_distance_miles).duration_hours = 7 ∧
     (split_sleeper_stop1 st.current_time st.current_miles
        st.current_day_number i.route_coordinates
        i.total_distance_miles).duration_hours = 3 ∧
     (split_sleeper_stop1 st.current_time st.current_miles
        st.current_day_number i.route_coordinates
        i.total_distance_miles).arrival_time =
       (split_sleeper_stop0 st.current_time st.current_miles
          st.current_day_number i.route_coordinates
          i.total_distance_miles).departure_time) ∧
    (st.driving_today ≥ max_drive →
      (apply_driving_limit_check cfg max_drive i st).planned_stops =
          st.planned_stops ++ create_split_sleeper_pair st.current_time
            st.current_miles st.current_day_number i.route_coordinates
            i.total_distance_miles ∧
        (apply_driving_limit_check cfg max_drive i st).all_duty_periods =
          st.all_duty_periods ++
            [{ status := .sleeper_berth, start_time := st.current_time,
               end_time := st.current_time + 7 },
             { status := .off_duty, start_time := st.current_time + 7,
               end_time := st.current_time + 7 + 3 }] ∧
        (apply_driving_limit_check cfg max_drive i st).on_duty_window_start =
          st.on_duty_window_start + 10 ∧
        (apply_driving_limit_check cfg max_drive i st).driving_today =
          st.driving_today ∧
        (apply_driving_limit_check cfg max_drive i st).current_day_number =
          st.current_day_number ∧
        (apply_driving_limit_check cfg max_drive i st).current_time =
          st.current_time + 7 + 3) ∧
    (st.current_time - st.on_duty_window_start ≥ max_window →
      (apply_window_check cfg max_window i st).1.planned_stops =
          st.planned_stops ++ create_split_sleeper_pair st.current_time
            st.current_miles st.current_day_number i.route_coordinates
            i.total_distance_miles ∧
        (apply_window_check cfg max_window i st).1.all_duty_periods =
          st.all_duty_periods ++
            [{ status := .sleeper_berth, start_time := st.current_time,
               end_time := st.current_time + 7 },
             { status := .off_duty, start_time := st.current_time + 7,
               end_time := st.current_time + 7 + 3 }] ∧
        (apply_window_check cfg max_window i st).1.on_duty_window_start =
          st.on_duty_window_start + 10 ∧
        (apply_window_check cfg max_window i st).1.driving_today =
          st.driving_today ∧
        (apply_window_check cfg max_window i st).1.current_day_number =
          st.current_day_number ∧
        (apply_window_check cfg max_window i st).1.current_time =
          st.current_time + 7 + 3) := by
  have hpair : ∀ st1 : SimState, apply_split_sleeper_pair i st1 =
      { st1 with
        planned_stops := st1.planned_stops ++ create_split_sleeper_pair
          st1.current_time st1.current_miles st1.current_day_number
          i.route_coordinates i.total_distance_miles
        all_duty_periods := st1.all_duty_periods ++
          [{ status := .sleeper_berth, start_time := st1.current_time,
             end_time := st1.current_time + 7 },
           { status := .off_duty, start_time := st1.current_time + 7,
             end_time := st1.current_time + 7 + 3 }]
        current_time := st1.current_time + 7 + 3
        driving_since_break := 0
        on_duty_window_start := st1.on_duty_window_start + 10 } := by
    intro st1
    unfold apply_split_sleeper_pair split_sleeper_stop0 split_sleeper_stop1
    simp only []
    congr 1
    norm_num
  refine ⟨⟨rfl, by simp [split_sleeper_stop0], by simp [split_sleeper_stop1],
    by simp [split_sleeper_stop0, split_sleeper_stop1]⟩, ?_, ?_⟩
  · intro hd
    unfold apply_driving_limit_check
    rw [if_pos hd, if_pos hsplit, hpair st]
    exact ⟨rfl, rfl, rfl, rfl, rfl, rfl⟩
  · intro hw
    unfold apply_window_check
    rw [if_pos hw, if_pos hsplit]
    simp [hpair st]

/-- Witness for C5 at a concrete state reaching both caps. -/
theorem C5_split_sleeper_behaviour_witness :
    (splitInput.split_sleeper = true) ∧
    (atCapState.driving_today ≥ 11 ∧
      (apply_driving_limit_check defaultConfig 11 splitInput
        atCapState).on_duty_window_start =
        atCapState.on_duty_window_start + 10 ∧
      (apply_driving_limit_check defaultConfig 11 splitInput
        atCapState).driving_today = atCapState.driving_today ∧
      (apply_driving_limit_check defaultConfig 11 splitInput
        atCapState).current_day_number = atCapState.current_day_number) ∧
    (atCapState.current_time - atCapState.on_duty_window_start ≥ 14 ∧
      (apply_window_check defaultConfig 14 splitInput
        atCapState).1.on_duty_window_start =
        atCapState.on_duty_window_start + 10) := by
  have h := C5_split_sleeper_behaviour defaultConfig 11 14 splitInput
    atCapState (by with_unfolding_all decide)
  have hd : atCapState.driving_today ≥ 11 := by with_unfolding_all decide
  have hw : atCapState.current_time - atCapState.on_duty_window_start ≥ 14 := by
    with_unfolding_all decide
  have h2 := h.2.1 hd
  have h3 := h.2.2 hw
  exact ⟨rfl, ⟨hd, h2.2.2.1, h2.2.2.2.1, h2.2.2.2.2.1⟩, ⟨hw, h3.2.2.1⟩⟩

/-! ## The duty-period chain invariant of the simulation loop -/

/-- The duty periods form a contiguous chain starting at t: each period
starts where the previous one ended (the first at t) and has strictly
positive duration. -/
def chainedFrom (t : ℚ) : List DutyPeriod → Prop
  | [] => True
  | p :: rest =>
    p.start_time = t ∧ p.start_time < p.end_time ∧ chainedFrom p.end_time rest

/-- The end of a period chain starting at t (t itself when empty). -/
def chainEnd (t : ℚ) : List DutyPeriod → ℚ
  | [] => t
  | p :: rest => chainEnd p.end_time rest

theorem chainEnd_append_single (t : ℚ) (ps : List DutyPeriod)
    (p : DutyPeriod) : chainEnd t (ps ++ [p]) = p.end_time := by
  induction ps generalizing t with
  | nil => rfl
  | cons q qs ih => exact ih q.end_time

theorem chainedFrom_append_single (t : ℚ) (ps : List DutyPeriod)
    (p : DutyPeriod) (h : chainedFrom t ps)
    (hs : p.start_time = chainEnd t ps)
    (hlt : p.start_time < p.end_time) :
    chainedFrom t (ps ++ [p]) := by
  induction ps generalizing t with
  | nil => exact ⟨hs, hlt, trivial⟩
  | cons q qs ih =>
    obtain ⟨h1, h2, h3⟩ := h
    exact ⟨h1, h2, ih q.end_time h3 hs⟩

/-- The chain invariant carried through the simulation loop: the duty
periods recorded so far form a contiguous chain from the departure time
ending at the current clock. -/
def ChainInv (i : TripInput) (st : SimState) : Prop :=
  chainedFrom i.departure_time st.all_duty_periods ∧
  chainEnd i.departure_time st.all_duty_periods = st.current_time

theorem ChainInv.snoc {i : TripInput} {st : SimState} (h : ChainInv i st)
    (status : DutyStatus) (d : ℚ) (hd : 0 < d) :
    chainedFrom i.departure_time (st.all_duty_periods ++
      [{ status := status, start_time := st.current_time,
         end_time := st.current_time + d }]) ∧
    chainEnd i.departure_time (st.all_duty_periods ++
      [{ status := status, start_time := st.current_time,
         end_time := st.current_time + d }]) = st.current_time + d := by
  refine ⟨chainedFrom_append_single _ _ _ h.1 h.2.symm
    (show st.current_time < st.current_time + d by linarith), ?_⟩
  exact chainEnd_append_single _ _ _

theorem ChainInv.snoc2 {i : TripInput} {st : SimState} (h : ChainInv i st)
    (s1 s2 : DutyStatus) (a b : ℚ) (ha : 0 < a) (hb : 0 < b) :
    chainedFrom i.departure_time (st.all_duty_periods ++
      [{ status := s1, start_time := st.current_time,
         end_time := st.current_time + a },
       { status := s2, start_time := st.current_time + a,
         end_time := st.current_time + a + b }]) ∧
    chainEnd i.departure_time (st.all_duty_periods ++
      [{ status := s1, start_time := st.current_time,
         end_time := st.current_time + a },
       { status := s2, start_time := st.current_time + a,
         end_time := st.current_time + a + b }]) = st.current_time + a + b := by
  have e : st.all_duty_periods ++
      [({ status := s1, start_time := st.current_time,
          end_time := st.current_time + a } : DutyPeriod),
       { status := s2, start_time := st.current_time + a,
         end_time := st.current_time + a + b }] =
      (st.all_duty_periods ++
        [{ status := s1, start_time := st.current_time,
           end_time := st.current_time + a }]) ++
      [{ status := s2, start_time := st.current_time + a,
         end_time := st.current_time + a + b }] := by
    simp
  rw [e]
  have h1 := h.snoc s1 a ha
  refine ⟨chainedFrom_append_single _ _ _ h1.1
    (show st.current_time + a = _ from h1.2.symm)
    (show st.current_time + a < st.current_time + a + b by linarith), ?_⟩
  exact chainEnd_append_single _ _ _

theorem apply_break_check_chain (bra : Option ℚ) (i : TripInput)
    (st : SimState) (h : ChainInv i st) :
    ChainInv i (apply_break_check defaultConfig bra i st) := by
  unfold apply_break_check
  cases bra with
  | none => exact h
  | some b =>
    dsimp only
    split_ifs with hb
    · have hs := h.snoc .off_duty defaultConfig.break_duration_hours
        (by norm_num [defaultConfig])
      exact ⟨hs.1, hs.2⟩
    · exact h

theorem apply_split_sleeper_pair_chain (i : TripInput) (st : SimState)
    (h : ChainInv i st) : ChainInv i (apply_split_sleeper_pair i st) := by
  unfold apply_split_sleeper_pair
  dsimp only [split_sleeper_stop0, split_sleeper_stop1]
  have hs := h.snoc2 .sleeper_berth .off_duty 7 3 (by norm_num) (by norm_num)
  exact ⟨hs.1, hs.2⟩

theorem apply_full_rest_chain (i : TripInput) (st : SimState)
    (h : ChainInv i st) : ChainInv i (apply_full_rest defaultConfig i st) := by
  unfold apply_full_rest
  dsimp only [create_rest_stop]
  have hs := h.snoc .sleeper_berth defaultConfig.off_duty_reset_hours
    (by norm_num [defaultConfig])
  exact ⟨hs.1, hs.2⟩

theorem apply_driving_limit_check_chain (max_drive : ℚ) (i : TripInput)
    (st : SimState) (h : ChainInv i st) :
    ChainInv i (apply_driving_limit_check defaultConfig max_drive i st) := by
  unfold apply_driving_limit_check
  split_ifs with h1 h2
  · exact apply_split_sleeper_pair_chain i st h
  · exact apply_full_rest_chain i st h
  · exact h

theorem apply_window_check_chain (max_window : ℚ) (i : TripInput)
    (st : SimState) (h : ChainInv i st) :
    ChainInv i (apply_window_check defaultConfig max_window i st).1 := by
  unfold apply_window_check
  dsimp only
  split_ifs with h1 h2
  · exact apply_split_sleeper_pair_chain i st h
  · exact apply_full_rest_chain i st h
  · exact h

theorem apply_cycle_check_chain (i : TripInput) (st : SimState)
    (h : ChainInv i st) :
    ChainInv i (apply_cycle_check defaultConfig i st) := by
  unfold apply_cycle_check
  dsimp only
  split_ifs with h1
  · have hs := h.snoc .off_duty defaultConfig.restart_hours
      (by norm_num [defaultConfig])
    exact ⟨hs.1, hs.2⟩
  · exact h

theorem apply_fuel_check_chain (i : TripInput) (st : SimState) (hod : ℚ)
    (h : ChainInv i st) :
    ChainInv i (apply_fuel_check defaultConfig i (st, hod)).1 := by
  unfold apply_fuel_check
  dsimp only [create_fuel_stop]
  split_ifs with h1
  · have hs := h.snoc .on_duty_not_driving defaultConfig.fuel_stop_duration_hours
      (by norm_num [defaultConfig])
    exact ⟨hs.1, hs.2⟩
  · exact h

theorem apply_pickup_check_chain (i : TripInput) (st : SimState) (hod : ℚ)
    (h : ChainInv i st) :
    ChainInv i (apply_pickup_check defaultConfig i (st, hod)).1 := by
  unfold apply_pickup_check
  dsimp only
  split_ifs with h1
  · have hs := h.snoc .on_duty_not_driving defaultConfig.pickup_duration_hours
      (by norm_num [defaultConfig])
    exact ⟨hs.1, hs.2⟩
  · exact h

theorem apply_drive_segment_chain (bra : Option ℚ) (max_drive max_window : ℚ)
    (i : TripInput) (st : SimState) (hod : ℚ) (h : ChainInv i st) :
    ChainInv i (apply_drive_segment defaultConfig bra max_drive max_window i
      (st, hod)) := by
  unfold apply_drive_segment
  dsimp only
  split_ifs with h1
  · have hpos : 0 < drive_segment_miles defaultConfig bra max_drive max_window
        i st hod / defaultConfig.average_speed_mph := by
      apply div_pos h1
      norm_num [defaultConfig]
    have hs := h.snoc .driving (drive_segment_miles defaultConfig bra max_drive
      max_window i st hod / defaultConfig.average_speed_mph) hpos
    exact ⟨hs.1, hs.2⟩
  · exact h

theorem step_chain (i : TripInput) (st : SimState) (h : ChainInv i st) :
    ChainInv i (step defaultConfig i st) := by
  unfold step
  exact apply_drive_segment_chain _ _ _ _ _ _
    (apply_pickup_check_chain _ _ _
      (apply_fuel_check_chain _ _ _
        (apply_cycle_check_chain _ _
          (apply_window_check_chain _ _ _
            (apply_driving_limit_check_chain _ _ _
              (apply_break_check_chain _ _ _ h))))))

/-- Generic invariant lemma for the fueled loop: any property preserved by
the step under the loop guard holds at the exit state, and the guard fails
there. -/
theorem run_loop_invariant (cfg : HOSConfig) (i : TripInput)
    (P : SimState → Prop)
    (hstep : ∀ s, P s → s.current_miles < i.total_distance_miles →
      P (step cfg i s)) :
    ∀ fuel st st', P st → run_loop cfg i fuel st = some st' →
      P st' ∧ ¬ st'.current_miles < i.total_distance_miles := by
  intro fuel
  induction fuel with
  | zero =>
    intro st st' hP hrun
    rw [run_loop.eq_def] at hrun
    split_ifs at hrun with hg
    all_goals cases hrun
    exact ⟨hP, hg⟩
  | succ n ih =>
    intro st st' hP hrun
    rw [run_loop.eq_def] at hrun
    split_ifs at hrun with hg
    · exact ih (step cfg i st) st' (hstep st hP hg) hrun
    · cases hrun
      exact ⟨hP, hg⟩

theorem initState_chain (i : TripInput) : ChainInv i (initState i) :=
  ⟨trivial, rfl⟩

theorem append_dropoff_chain (i : TripInput) (st : SimState)
    (h : ChainInv i st) : ChainInv i (append_dropoff defaultConfig i st) := by
  unfold append_dropoff
  dsimp only
  have hs := h.snoc .on_duty_not_driving defaultConfig.dropoff_duration_hours
    (by norm_num [defaultConfig])
  exact ⟨hs.1, hs.2⟩

/-- The duty-period list of any plan produced by the simulation (with the
default configuration) is a contiguous chain from the departure time. -/
theorem run_loop_chain (i : TripInput) (fuel : ℕ) (st' : SimState)
    (hrun : run_loop defaultConfig i fuel (initState i) = some st') :
    ChainInv i st' ∧ ¬ st'.current_miles < i.total_distance_miles :=
  run_loop_invariant defaultConfig i (ChainInv i)
    (fun s hs _ => step_chain i s hs) fuel (initState i) st'
    (initState_chain i) hrun

/-! ## The driving-hours/mileage invariant (C7) -/

theorem total_driving_of_append (ps qs : List DutyPeriod) :
    total_driving_of (ps ++ qs) =
      total_driving_of ps + total_driving_of qs := by
  simp [total_driving_of, List.filter_append]

theorem total_driving_of_single (p : DutyPeriod) :
    total_driving_of [p] =
      if p.status = .driving then p.end_time - p.start_time else 0 := by
  simp [total_driving_of, List.filter_singleton]
  split_ifs with h <;> simp_all [DutyPeriod.duration_hours]

/-- The mileage invariant: the summed driving durations times the average
speed equal the odometer, and the odometer never exceeds the total
distance. -/
def MilesInv (i : TripInput) (st : SimState) : Prop :=
  total_driving_of st.all_duty_periods * defaultConfig.average_speed_mph =
    st.current_miles ∧
  st.current_miles ≤ i.total_distance_miles

theorem MilesInv.nondriving {i : TripInput} {st : SimState}
    (h : MilesInv i st) (st1 : SimState) (p : DutyPeriod)
    (hst : st1.all_duty_periods = st.all_duty_periods ++ [p])
    (hm : st1.current_miles = st.current_miles)
    (hp : p.status ≠ .driving) : MilesInv i st1 := by
  refine ⟨?_, by rw [hm]; exact h.2⟩
  rw [hst, hm, total_driving_of_append, total_driving_of_single, if_neg hp]
  simpa using h.1

theorem apply_break_check_miles (bra : Option ℚ) (i : TripInput)
    (st : SimState) (h : MilesInv i st) :
    MilesInv i (apply_break_check defaultConfig bra i st) := by
  unfold apply_break_check
  cases bra with
  | none => exact h
  | some b =>
    dsimp only
    split_ifs with hb
    · exact h.nondriving _ _ rfl rfl (by simp)
    · exact h

theorem apply_split_sleeper_pair_miles (i : TripInput) (st : SimState)
    (h : MilesInv i st) : MilesInv i (apply_split_sleeper_pair i st) := by
  unfold apply_split_sleeper_pair
  dsimp only [split_sleeper_stop0, split_sleeper_stop1]
  refine ⟨?_, h.2⟩
  have e : ∀ (ps : List DutyPeriod) (A B : DutyPeriod),
      ps ++ [A, B] = (ps ++ [A]) ++ [B] := fun ps A B => by simp
  rw [e, total_driving_of_append, total_driving_of_append,
    total_driving_of_single, total_driving_of_single]
  simpa using h.1

theorem apply_full_rest_miles (i : TripInput) (st : SimState)
    (h : MilesInv i st) : MilesInv i (apply_full_rest defaultConfig i st) := by
  unfold apply_full_rest
  dsimp only [create_rest_stop]
  exact h.nondriving _ _ rfl rfl (by simp)

theorem apply_driving_limit_check_miles (max_drive : ℚ) (i : TripInput)
    (st : SimState) (h : MilesInv i st) :
    MilesInv i (apply_driving_limit_check defaultConfig max_drive i st) := by
  unfold apply_driving_limit_check
  split_ifs with h1 h2
  · exact apply_split_sleeper_pair_miles i st h
  · exact apply_full_rest_miles i st h
  · exact h

theorem apply_window_check_miles (max_window : ℚ) (i : TripInput)
    (st : SimState) (h : MilesInv i st) :
    MilesInv i (apply_window_check defaultConfig max_window i st).1 := by
  unfold apply_window_check
  dsimp only
  split_ifs with h1 h2
  · exact apply_split_sleeper_pair_miles i st h
  · exact apply_full_rest_miles i st h
  · exact h

theorem apply_cycle_check_miles (i : TripInput) (st : SimState)
    (h : MilesInv i st) :
    MilesInv i (apply_cycle_check defaultConfig i st) := by
  unfold apply_cycle_check
  dsimp only
  split_ifs with h1
  · exact h.nondriving _ _ rfl rfl (by simp)
  · exact h

theorem apply_fuel_check_miles (i : TripInput) (st : SimState) (hod : ℚ)
    (h : MilesInv i st) :
    MilesInv i (apply_fuel_check defaultConfig i (st, hod)).1 := by
  unfold apply_fuel_check
  dsimp only [create_fuel_stop]
  split_ifs with h1
  · exact h.nondriving _ _ rfl rfl (by simp)
  · exact h

theorem apply_pickup_check_miles (i : TripInput) (st : SimState) (hod : ℚ)
    (h : MilesInv i st) :
    MilesInv i (apply_pickup_check defaultConfig i (st, hod)).1 := by
  unfold apply_pickup_check
  dsimp only
  split_ifs with h1
  · exact h.nondriving _ _ rfl rfl (by simp)
  · exact h

/-- The drivable segment never overshoots the remaining distance. -/
theorem drive_segment_miles_le (cfg : HOSConfig) (bra : Option ℚ)
    (max_drive max_window : ℚ) (i : TripInput) (st : SimState) (hod : ℚ) :
    drive_segment_miles cfg bra max_drive max_window i st hod ≤
      i.total_distance_miles - st.current_miles := by
  unfold drive_segment_miles
  dsimp only
  split_ifs with h1 h2 h3 h2 h3 h3 h3 <;> linarith

theorem apply_drive_segment_miles (bra : Option ℚ) (max_drive max_window : ℚ)
    (i : TripInput) (st : SimState) (hod : ℚ) (h : MilesInv i st) :
    MilesInv i (apply_drive_segment defaultConfig bra max_drive max_window i
      (st, hod)) := by
  unfold apply_drive_segment
  dsimp only
  split_ifs with h1
  · have hle := drive_segment_miles_le defaultConfig bra max_drive max_window
      i st hod
    constructor
    · rw [total_driving_of_append, total_driving_of_single, if_pos rfl]
      dsimp only
      rw [add_mul, h.1]
      have : (st.current_time + drive_segment_miles defaultConfig bra max_drive
          max_window i st hod / defaultConfig.average_speed_mph -
          st.current_time) = drive_segment_miles defaultConfig bra max_drive
          max_window i st hod / defaultConfig.average_speed_mph := by ring
      rw [this, div_mul_cancel₀]
      norm_num [defaultConfig]
    · dsimp only
      linarith
  · exact h

theorem step_miles (i : TripInput) (st : SimState) (h : MilesInv i st) :
    MilesInv i (step defaultConfig i st) := by
  unfold step
  exact apply_drive_segment_miles _ _ _ _ _ _
    (apply_pickup_check_miles _ _ _
      (apply_fuel_check_miles _ _ _
        (apply_cycle_check_miles _ _
          (apply_window_check_miles _ _ _
            (apply_driving_limit_check_miles _ _ _
              (apply_break_check_miles _ _ _ h))))))

/-! ## C7: total driving hours versus distance / average speed -/

/-- C7: for every completed simulation run with 0 <= total distance, the
total driving hours of the plan are exactly total_distance_miles divided by
the configured average speed, and in particular never exceed it. -/
theorem C7_total_driving_hours_exact (i : TripInput) (fuel : ℕ)
    (plan : HOSPlan) (h0 : 0 ≤ i.total_distance_miles)
    (hrun : calculate_trip_plan defaultConfig i fuel = some plan) :
    plan.total_driving_hours =
      i.total_distance_miles / defaultConfig.average_speed_mph ∧
    plan.total_driving_hours ≤
      i.total_distance_miles / defaultConfig.average_speed_mph := by
  rw [calculate_trip_plan, Option.map_eq_some'] at hrun
  obtain ⟨st', hloop, hplan⟩ := hrun
  have hinv := run_loop_invariant defaultConfig i (MilesInv i)
    (fun s hs _ => step_miles i s hs) fuel (initState i) st'
    ⟨by simp [initState, total_driving_of], h0⟩ hloop
  have hcur : st'.current_miles = i.total_distance_miles :=
    le_antisymm hinv.1.2 (not_lt.mp hinv.2)
  have h55 : defaultConfig.average_speed_mph ≠ 0 := by
    norm_num [defaultConfig]
  have htdo : total_driving_of st'.all_duty_periods =
      i.total_distance_miles / defaultConfig.average_speed_mph := by
    rw [eq_div_iff h55, hinv.1.1, hcur]
  have hfield : plan.total_driving_hours =
      total_driving_of (append_dropoff defaultConfig i st').all_duty_periods := by
    rw [← hplan]
  rw [hfield]
  have hdp : (append_dropoff defaultConfig i st').all_duty_periods =
      st'.all_duty_periods ++
        [{ status := .on_duty_not_driving, start_time := st'.current_time,
           end_time := st'.current_time + defaultConfig.dropoff_duration_hours }] := by
    rfl
  rw [hdp, total_driving_of_append, total_driving_of_single, htdo]
  simp

/-- Witness for C7 at the zero-distance input. -/
theorem C7_total_driving_hours_exact_witness :
    ((0 : ℚ) ≤ zeroDistInput.total_distance_miles) ∧
    (∃ plan, calculate_trip_plan defaultConfig zeroDistInput 0 = some plan ∧
      plan.total_driving_hours =
        zeroDistInput.total_distance_miles /
          defaultConfig.average_speed_mph) := by
  have hsome : (calculate_trip_plan defaultConfig zeroDistInput 0).isSome :=
    by with_unfolding_all decide
  obtain ⟨plan, hplan⟩ := Option.isSome_iff_exists.mp hsome
  exact ⟨by norm_num [zeroDistInput],
    ⟨plan, hplan, (C7_total_driving_hours_exact zeroDistInput 0 plan
      (by norm_num [zeroDistInput]) hplan).1⟩⟩

/-! ## C2: one summary per day counter (corrected) -/

theorem add_period_to_summary_fields (cfg : HOSConfig) (a b : ℚ)
    (s : DailyHOSSummary) (p : DutyPeriod) :
    (add_period_to_summary cfg a b s p).day_number = s.day_number ∧
    (add_period_to_summary cfg a b s p).date = s.date := by
  unfold add_period_to_summary
  dsimp only
  split_ifs <;> cases p.status <;> exact ⟨rfl, rfl⟩

theorem foldl_add_period_fields (cfg : HOSConfig) (a b : ℚ)
    (ps : List DutyPeriod) (s0 : DailyHOSSummary) :
    (ps.foldl (add_period_to_summary cfg a b) s0).day_number = s0.day_number ∧
    (ps.foldl (add_period_to_summary cfg a b) s0).date = s0.date := by
  induction ps generalizing s0 with
  | nil => exact ⟨rfl, rfl⟩
  | cons p ps ih =>
    rw [List.foldl_cons]
    rcases ih (add_period_to_summary cfg a b s0 p) with ⟨h1, h2⟩
    rcases add_period_to_summary_fields cfg a b s0 p with ⟨h3, h4⟩
    exact ⟨h1.trans h3, h2.trans h4⟩

theorem build_one_day_summary_fields (cfg : HOSConfig)
    (ps : List DutyPeriod) (t : ℚ) (d : ℕ) :
    (build_one_day_summary cfg ps t d).day_number = d ∧
    (build_one_day_summary cfg ps t d).date =
      floor24 t + 24 * ((d : ℚ) - 1) := by
  unfold build_one_day_summary
  rcases foldl_add_period_fields cfg (floor24 t + 24 * ((d : ℚ) - 1))
    (floor24 t + 24 * ((d : ℚ) - 1) + 24) ps
    { date := floor24 t + 24 * ((d : ℚ) - 1), day_number := d } with ⟨h1, h2⟩
  dsimp only
  split_ifs with h
  · exact ⟨h1, h2⟩
  · exact ⟨h1, h2⟩

theorem build_daily_summaries_length (cfg : HOSConfig)
    (ps : List DutyPeriod) (t : ℚ) (n : ℕ) :
    (build_daily_summaries cfg ps t n).length = n := by
  simp [build_daily_summaries]

/-- C2 (amended): the aggregator produces exactly one DailyHOSSummary per
value of the day-number counter, from day 1 through total_trip_days, each
anchored at the local midnight of the corresponding day after departure.
The counter advances only at full 10-hour rests and 34-hour restarts, so
this can be fewer than the elapsed calendar days (see the counterexample). -/
theorem C2_amended_one_summary_per_day_counter (i : TripInput) (fuel : ℕ)
    (plan : HOSPlan)
    (hrun : calculate_trip_plan defaultConfig i fuel = some plan) :
    plan.daily_summaries.length = plan.total_trip_days ∧
    ∀ k, k < plan.daily_summaries.length →
      (plan.daily_summaries.getD k { date := 0, day_number := 0 }).day_number
        = k + 1 ∧
      (plan.daily_summaries.getD k { date := 0, day_number := 0 }).date =
        floor24 i.departure_time + 24 * (k : ℚ) := by
  rw [calculate_trip_plan, Option.map_eq_some'] at hrun
  obtain ⟨st', hloop, hplan⟩ := hrun
  have hsum : plan.daily_summaries = build_daily_summaries defaultConfig
      (append_dropoff defaultConfig i st').all_duty_periods i.departure_time
      (append_dropoff defaultConfig i st').current_day_number := by
    rw [← hplan]
  have hdays : plan.total_trip_days =
      (append_dropoff defaultConfig i st').current_day_number := by
    rw [← hplan]
  constructor
  · rw [hsum, hdays, build_daily_summaries_length]
  · intro k hk
    have hk2 : k < (build_daily_summaries defaultConfig
        (append_dropoff defaultConfig i st').all_duty_periods
        i.departure_time
        (append_dropoff defaultConfig i st').current_day_number).length := by
      rw [← hsum]
      exact hk
    have hget : plan.daily_summaries.getD k { date := 0, day_number := 0 } =
        build_one_day_summary defaultConfig
          (append_dropoff defaultConfig i st').all_duty_periods
          i.departure_time (k + 1) := by
      rw [hsum, List.getD_eq_getElem _ _ hk2]
      simp [build_daily_summaries]
    rcases build_one_day_summary_fields defaultConfig
      (append_dropoff defaultConfig i st').all_duty_periods
      i.departure_time (k + 1) with ⟨h1, h2⟩
    refine ⟨by rw [hget]; exact h1, by rw [hget, h2]; push_cast; ring⟩

/-- Counterexample to C2: departing at 23:00 on a 100-mile trip, the
arrival falls on the next calendar day (its midnight anchor is hour 24, the
departure day anchor is hour 0), so the trip spans two elapsed calendar
days, yet exactly one DailyHOSSummary is produced (the day counter advances
only at 10-hour rests and restarts, not at midnight). -/
theorem C2_counterexample_midnight_crossing :
    (calculate_trip_plan defaultConfig lateInput 10).map (fun p =>
      (p.daily_summaries.length, floor24 p.departure_time,
       floor24 p.arrival_time)) = some (1, 0, 24) := by
  with_unfolding_all decide

/-- Witness for the amended C2 at the zero-distance input. -/
theorem C2_amended_one_summary_per_day_counter_witness :
    ∃ plan, calculate_trip_plan defaultConfig zeroDistInput 0 = some plan ∧
      plan.daily_summaries.length = plan.total_trip_days := by
  have hsome : (calculate_trip_plan defaultConfig zeroDistInput 0).isSome :=
    by with_unfolding_all decide
  obtain ⟨plan, hplan⟩ := Option.isSome_iff_exists.mp hsome
  exact ⟨plan, hplan,
    (C2_amended_one_summary_per_day_counter zeroDistInput 0 plan hplan).1⟩

/-! ## C1: every daily summary totals exactly 24 hours -/

/-- The hour contribution of one duty period to one day window, as
accumulated by _build_daily_summaries. -/
def clip_hours (a b : ℚ) (p : DutyPeriod) : ℚ :=
  if p.end_time ≤ a ∨ p.start_time ≥ b then 0
  else if min p.end_time b - max p.start_time a > 0 then
    min p.end_time b - max p.start_time a
  else 0

theorem add_period_to_summary_total (cfg : HOSConfig) (a b : ℚ)
    (s : DailyHOSSummary) (p : DutyPeriod) :
    (add_period_to_summary cfg a b s p).total_hours =
      s.total_hours + clip_hours a b p := by
  unfold add_period_to_summary clip_hours
  dsimp only
  split_ifs <;> cases p.status <;>
    simp [DailyHOSSummary.total_hours] <;> ring

theorem foldl_add_period_total (cfg : HOSConfig) (a b : ℚ)
    (ps : List DutyPeriod) (s0 : DailyHOSSummary) :
    (ps.foldl (add_period_to_summary cfg a b) s0).total_hours =
      s0.total_hours + (ps.map (clip_hours a b)).sum := by
  induction ps generalizing s0 with
  | nil => simp
  | cons p ps ih =>
    rw [List.foldl_cons, ih, add_period_to_summary_total]
    simp
    ring

theorem clip_chain_aux (a b t e : ℚ) (hte : t ≤ e) :
    max 0 (min e b - max t a) + max 0 (b - max e a) ≤
      max 0 (b - max t a) := by
  simp only [max_def, min_def]
  split_ifs <;> linarith

/-- The total day-window contribution of a contiguous chain of periods is
bounded by the part of the window after the chain start. -/
theorem chain_clip_sum_le (a b : ℚ) (ps : List DutyPeriod) :
    ∀ t, chainedFrom t ps →
      ((ps.map (clip_hours a b)).sum) ≤ max 0 (b - max t a) := by
  induction ps with
  | nil => intro t _; simp
  | cons p r ih =>
    intro t h
    obtain ⟨hs, hlt, hchain⟩ := h
    have h1 : clip_hours a b p ≤ max 0 (min p.end_time b - max t a) := by
      unfold clip_hours
      split_ifs with hsk hpos
      · exact le_max_left _ _
      · rw [hs] at *
        exact le_max_right _ _
      · exact le_max_left _ _
    have h2 := ih p.end_time hchain
    have h3 := clip_chain_aux a b t p.end_time (hs ▸ le_of_lt hlt)
    simp only [List.map_cons, List.sum_cons]
    linarith

/-- Every day summary built from a contiguous chain of duty periods has its
four status totals summing to exactly 24 hours. -/
theorem build_one_day_summary_total_24 (t0 : ℚ) (ps : List DutyPeriod)
    (t : ℚ) (d : ℕ) (h : chainedFrom t0 ps) :
    (build_one_day_summary defaultConfig ps t d).total_hours = 24 := by
  unfold build_one_day_summary
  dsimp only
  set a := floor24 t + 24 * ((d : ℚ) - 1) with ha
  set s0 : DailyHOSSummary := { date := a, day_number := d } with hs0
  have htot : ((ps.foldl (add_period_to_summary defaultConfig a (a + 24))
      s0)).total_hours = (ps.map (clip_hours a (a + 24))).sum := by
    rw [foldl_add_period_total]
    simp [hs0, DailyHOSSummary.total_hours]
  have hle : ((ps.map (clip_hours a (a + 24))).sum) ≤ 24 := by
    refine le_trans (chain_clip_sum_le a (a + 24) ps t0 h) ?_
    have h1 : a + 24 - max t0 a ≤ 24 := by
      have := le_max_right t0 a
      linarith
    exact max_le (by norm_num) h1
  split_ifs with hlt
  · simp only [DailyHOSSummary.total_hours]
    ring
  · push_neg at hlt
    rw [htot] at hlt ⊢
    linarith [hle, hlt]

/-- C1: for every completed simulation run, every DailyHOSSummary produced
by the aggregator has its four status-hour totals (driving, on-duty,
off-duty, sleeper-berth) summing to exactly 24.0: the fill step adds any
shortfall below 24 to the off-duty total, and the contiguous duty-period
chain makes an excess above 24 impossible. -/
theorem C1_daily_summary_totals_24 (i : TripInput) (fuel : ℕ)
    (plan : HOSPlan)
    (hrun : calculate_trip_plan defaultConfig i fuel = some plan) :
    ∀ s ∈ plan.daily_summaries,
      s.driving_hours + s.on_duty_hours + s.off_duty_hours +
        s.sleeper_berth_hours = 24 := by
  rw [calculate_trip_plan, Option.map_eq_some'] at hrun
  obtain ⟨st', hloop, hplan⟩ := hrun
  have hchain : ChainInv i (append_dropoff defaultConfig i st') :=
    append_dropoff_chain i st' (run_loop_chain i fuel st' hloop).1
  have hsum : plan.daily_summaries = build_daily_summaries defaultConfig
      (append_dropoff defaultConfig i st').all_duty_periods i.departure_time
      (append_dropoff defaultConfig i st').current_day_number := by
    rw [← hplan]
  intro s hs
  rw [hsum, build_daily_summaries] at hs
  obtain ⟨k, _, hk⟩ := List.mem_map.mp hs
  have h24 := build_one_day_summary_total_24 i.departure_time
    (append_dropoff defaultConfig i st').all_duty_periods
    i.departure_time (k + 1) hchain.1
  rw [hk] at h24
  simpa [DailyHOSSummary.total_hours] using h24

/-- Witness for C1 at the zero-distance input. -/
theorem C1_daily_summary_totals_24_witness :
    ∃ plan, calculate_trip_plan defaultConfig zeroDistInput 0 = some plan ∧
      ∀ s ∈ plan.daily_summaries,
        s.driving_hours + s.on_duty_hours + s.off_duty_hours +
          s.sleeper_berth_hours = 24 := by
  have hsome : (calculate_trip_plan defaultConfig zeroDistInput 0).isSome :=
    by with_unfolding_all decide
  obtain ⟨plan, hplan⟩ := Option.isSome_iff_exists.mp hsome
  exact ⟨plan, hplan, C1_daily_summary_totals_24 zeroDistInput 0 plan hplan⟩

/-! ## C6: rendered entries tile the day from 0.0 to 24.0 -/

/-- The day-scoped duty-period list accumulated by _build_daily_summaries
for one day window. -/
def clipped_list (a b : ℚ) : List DutyPeriod → List DutyPeriod
  | [] => []
  | p :: r =>
    if p.end_time ≤ a ∨ p.start_time ≥ b then clipped_list a b r
    else if min p.end_time b - max p.start_time a > 0 then
      { status := p.status, start_time := max p.start_time a,
        end_time := min p.end_time b } :: clipped_list a b r
    else clipped_list a b r

theorem add_period_to_summary_periods (cfg : HOSConfig) (a b : ℚ)
    (s : DailyHOSSummary) (p : DutyPeriod) :
    (add_period_to_summary cfg a b s p).duty_periods =
      s.duty_periods ++ clipped_list a b [p] := by
  unfold add_period_to_summary clipped_list
  dsimp only
  split_ifs <;> cases p.status <;> simp [clipped_list]

theorem clipped_list_append (a b : ℚ) (ps qs : List DutyPeriod) :
    clipped_list a b (ps ++ qs) =
      clipped_list a b ps ++ clipped_list a b qs := by
  induction ps with
  | nil => simp [clipped_list]
  | cons p r ih =>
    simp only [List.cons_append, clipped_list]
    split_ifs <;> simp [ih]

theorem foldl_add_period_periods (cfg : HOSConfig) (a b : ℚ)
    (ps : List DutyPeriod) (s0 : DailyHOSSummary) :
    (ps.foldl (add_period_to_summary cfg a b) s0).duty_periods =
      s0.duty_periods ++ clipped_list a b ps := by
  induction ps generalizing s0 with
  | nil => simp [clipped_list]
  | cons p r ih =>
    rw [List.foldl_cons, ih, add_period_to_summary_periods]
    have : clipped_list a b (p :: r) =
        clipped_list a b [p] ++ clipped_list a b r := by
      rw [show p :: r = [p] ++ r from rfl, clipped_list_append]
    rw [this, List.append_assoc]

/-- Day-scoped periods in increasing position: each period lies after the
threshold c, has positive length, and ends by b. -/
def day_chain (b : ℚ) : ℚ → List DutyPeriod → Prop
  | _, [] => True
  | c, p :: r => c ≤ p.start_time ∧ p.start_time < p.end_time ∧
      p.end_time ≤ b ∧ day_chain b p.end_time r

/-- Clipping a contiguous chain to a day window yields a day chain. -/
theorem clipped_list_day_chain (a b : ℚ) (ps : List DutyPeriod) :
    ∀ t c, chainedFrom t ps → c ≤ max t a → a ≤ c →
      day_chain b c (clipped_list a b ps) := by
  induction ps with
  | nil => intro t c _ _ _; trivial
  | cons p r ih =>
    intro t c h hc ha
    obtain ⟨hs, hlt, hchain⟩ := h
    unfold clipped_list
    split_ifs with hsk hpos
    · exact ih p.end_time c hchain
        (le_trans hc (max_le_max (hs ▸ le_of_lt hlt) le_rfl)) ha
    · refine ⟨show c ≤ max p.start_time a from hs ▸ hc,
        show max p.start_time a < min p.end_time b from by linarith,
        show min p.end_time b ≤ b from min_le_right _ _, ?_⟩
      show day_chain b (min p.end_time b) (clipped_list a b r)
      refine ih p.end_time (min p.end_time b) hchain ?_ ?_
      · exact le_trans (min_le_left _ _) (le_max_left _ _)
      · have h1 : a ≤ max p.start_time a := le_max_right _ _
        linarith
    · exact ih p.end_time c hchain
        (le_trans hc (max_le_max (hs ▸ le_of_lt hlt) le_rfl)) ha

/-! ### Clock-hour and rounding lemmas -/

theorem clock_hour_nonneg (t : ℚ) : 0 ≤ clock_hour t := by
  unfold clock_hour
  have h : (0 : ℤ) ≤ ⌊60 * t⌋ % 1440 :=
    Int.emod_nonneg _ (by norm_num)
  apply div_nonneg _ (by norm_num : (0:ℚ) ≤ 60)
  exact_mod_cast h

theorem clock_hour_lt_24 (t : ℚ) : clock_hour t < 24 := by
  unfold clock_hour
  have h : (⌊60 * t⌋ % 1440 : ℤ) < 1440 := Int.emod_lt_of_pos _ (by norm_num)
  rw [div_lt_iff₀ (by norm_num : (0:ℚ) < 60)]
  calc ((⌊60 * t⌋ % 1440 : ℤ) : ℚ) ≤ 1439 := by exact_mod_cast Int.lt_add_one_iff.mp h
    _ < 24 * 60 := by norm_num

theorem clock_hour_eq_of_day (K : ℤ) (t : ℚ) (h1 : 24 * (K : ℚ) ≤ t)
    (h2 : t < 24 * (K : ℚ) + 24) :
    clock_hour t = ((⌊60 * t⌋ : ℚ) - 1440 * (K : ℚ)) / 60 := by
  unfold clock_hour
  have hlo : 1440 * K ≤ ⌊60 * t⌋ := by
    have : (1440 * K : ℚ) ≤ 60 * t := by push_cast; linarith
    exact_mod_cast Int.le_floor.mpr (by exact_mod_cast this)
  have hhi : ⌊60 * t⌋ < 1440 * K + 1440 := by
    have h60 : (60 : ℚ) * t < 1440 * K + 1440 := by push_cast; linarith
    have := Int.floor_le_floor (le_of_lt h60)
    have hf : ⌊(1440 * (K : ℚ) + 1440)⌋ = 1440 * K + 1440 := by
      rw [show (1440 * (K : ℚ) + 1440) = ((1440 * K + 1440 : ℤ) : ℚ) by push_cast; ring]
      exact Int.floor_intCast _
    have hlt : (60 : ℚ) * t < ((1440 * K + 1440 : ℤ) : ℚ) := by push_cast; linarith
    exact Int.floor_lt.mpr (by exact_mod_cast hlt)
  have hmod : ⌊60 * t⌋ % 1440 = ⌊60 * t⌋ - 1440 * K := by
    have h0 : 0 ≤ ⌊60 * t⌋ - 1440 * K := by omega
    have h1440 : ⌊60 * t⌋ - 1440 * K < 1440 := by omega
    conv_lhs => rw [show ⌊60 * t⌋ = (⌊60 * t⌋ - 1440 * K) + 1440 * K by ring]
    rw [Int.add_mul_emod_self_left]
    exact Int.emod_eq_of_lt h0 h1440
  rw [hmod]
  push_cast
  ring

theorem clock_hour_mono_of_day (K : ℤ) (t1 t2 : ℚ)
    (h1 : 24 * (K : ℚ) ≤ t1) (h12 : t1 ≤ t2)
    (h2 : t2 < 24 * (K : ℚ) + 24) :
    clock_hour t1 ≤ clock_hour t2 := by
  rw [clock_hour_eq_of_day K t1 h1 (lt_of_le_of_lt h12 h2),
    clock_hour_eq_of_day K t2 (le_trans h1 h12) h2]
  have := Int.floor_le_floor (mul_le_mul_of_nonneg_left h12
    (by norm_num : (0:ℚ) ≤ 60))
  have hc : ((⌊60 * t1⌋ : ℚ)) ≤ ((⌊60 * t2⌋ : ℚ)) := by exact_mod_cast this
  linarith

theorem clock_hour_day_boundary (K : ℤ) :
    clock_hour (24 * (K : ℚ)) = 0 := by
  unfold clock_hour
  have h : (60 : ℚ) * (24 * (K : ℚ)) = ((1440 * K : ℤ) : ℚ) := by
    push_cast; ring
  rw [h, Int.floor_intCast]
  simp [Int.mul_emod_right]

theorem round2_mono {x y : ℚ} (h : x ≤ y) : round2 x ≤ round2 y := by
  unfold round2
  have := Int.floor_le_floor (show 100 * x + 1/2 ≤ 100 * y + 1/2 by linarith)
  have hc : ((⌊100 * x + 1/2⌋ : ℚ)) ≤ ((⌊100 * y + 1/2⌋ : ℚ)) := by
    exact_mod_cast this
  linarith

theorem round2_zero : round2 0 = 0 := by
  unfold round2
  norm_num

theorem round2_24 : round2 24 = 24 := by
  unfold round2
  norm_num

/-! ### From day chains to well-formed entry lists -/

theorem create_log_entry_start (p : DutyPeriod) :
    (create_log_entry p).start_hour = round2 (clock_hour p.start_time) := rfl

theorem create_log_entry_end (p : DutyPeriod) :
    (create_log_entry p).end_hour = round2
      (if clock_hour p.end_time < clock_hour p.start_time then 24
       else clock_hour p.end_time) := rfl

/-- Well-formed entry lists: entries sit after the threshold c, are ordered
with nonnegative extent, and end by hour 24. -/
def ents_ok : ℚ → List ELDLogEntry → Prop
  | _, [] => True
  | c, e :: r => c ≤ e.start_hour ∧ e.start_hour ≤ e.end_hour ∧
      e.end_hour ≤ 24 ∧ ents_ok e.end_hour r

theorem day_chain_entries (K : ℤ) (ps : List DutyPeriod) :
    ∀ c, 24 * (K : ℚ) ≤ c →
      day_chain (24 * (K : ℚ) + 24) c ps →
      ents_ok (round2 (clock_hour c)) (ps.map create_log_entry) := by
  induction ps with
  | nil => intro c _ _; trivial
  | cons p r ih =>
    intro c hcA h
    obtain ⟨hcs, hse, heB, hr⟩ := h
    have hA : (24 * (K : ℚ)) ≤ p.start_time := le_trans hcA hcs
    have hsB : p.start_time < 24 * (K : ℚ) + 24 := lt_of_lt_of_le hse heB
    have h24 : round2 (clock_hour p.end_time) ≤ 24 := by
      have := round2_mono (le_of_lt (clock_hour_lt_24 p.end_time))
      rwa [round2_24] at this
    have h24s : round2 (clock_hour p.start_time) ≤ 24 := by
      have := round2_mono (le_of_lt (clock_hour_lt_24 p.start_time))
      rwa [round2_24] at this
    refine ⟨?_, ?_, ?_, ?_⟩
    · rw [create_log_entry_start]
      exact round2_mono (clock_hour_mono_of_day K c p.start_time hcA hcs hsB)
    · rw [create_log_entry_start, create_log_entry_end]
      by_cases hadj : clock_hour p.end_time < clock_hour p.start_time
      · rw [if_pos hadj, round2_24]
        exact h24s
      · rw [if_neg hadj]
        exact round2_mono (not_lt.mp hadj)
    · rw [create_log_entry_end]
      by_cases hadj : clock_hour p.end_time < clock_hour p.start_time
      · rw [if_pos hadj, round2_24]
      · rw [if_neg hadj]
        exact h24
    · rcases eq_or_lt_of_le heB with heq | hlt
      · have hr0 : r = [] := by
          cases r with
          | nil => rfl
          | cons q qs =>
            obtain ⟨hq1, hq2, hq3, _⟩ := hr
            rw [heq] at hq1
            linarith
        rw [hr0]
        trivial
      · have hnadj : ¬ clock_hour p.end_time < clock_hour p.start_time :=
          not_lt.mpr (clock_hour_mono_of_day K p.start_time p.end_time hA
            (le_of_lt hse) hlt)
        rw [create_log_entry_end, if_neg hnadj]
        exact ih p.end_time (le_trans hA (le_of_lt hse)) hr

theorem ents_ok_start_le : ∀ (es : List ELDLogEntry) (c : ℚ),
    ents_ok c es → ∀ e ∈ es, c ≤ e.start_hour := by
  intro es
  induction es with
  | nil => intro c _ e he; cases he
  | cons f r ih =>
    intro c h e he
    obtain ⟨h1, h2, _, h4⟩ := h
    rcases List.mem_cons.mp he with rfl | hmem
    · exact h1
    · exact le_trans (le_trans h1 h2) (ih f.end_hour h4 e hmem)

theorem ents_ok_sorted : ∀ (es : List ELDLogEntry) (c : ℚ),
    ents_ok c es →
    es.Sorted (fun a b : ELDLogEntry => a.start_hour ≤ b.start_hour) := by
  intro es
  induction es with
  | nil => intro c _; exact List.sorted_nil
  | cons f r ih =>
    intro c h
    obtain ⟨h1, h2, h3, h4⟩ := h
    rw [List.sorted_cons]
    refine ⟨?_, ih f.end_hour h4⟩
    intro b hb
    exact le_trans h2 (ents_ok_start_le r f.end_hour h4 b hb)

/-- The target tiling property of a rendered day: starting from hour c, the
entries chain exactly (each starts where the previous ended), every entry
has nonnegative extent, and the last ends exactly at hour 24 (an empty list
is allowed only when c is already 24). -/
def tiles_from : ℚ → List ELDLogEntry → Prop
  | c, [] => c = 24
  | c, e :: r => e.start_hour = c ∧ e.start_hour ≤ e.end_hour ∧
      tiles_from e.end_hour r

theorem fill_gaps_walk_tiles : ∀ (es : List ELDLogEntry) (c : ℚ),
    ents_ok c es → c ≤ 24 → tiles_from c (fill_gaps_walk c es) := by
  intro es
  induction es with
  | nil =>
    intro c _ hc
    unfold fill_gaps_walk
    split_ifs with h
    · exact ⟨rfl, hc, rfl⟩
    · exact le_antisymm hc (not_lt.mp h)
  | cons e r ih =>
    intro c h hc
    obtain ⟨h1, h2, h3, h4⟩ := h
    unfold fill_gaps_walk
    by_cases hgap : e.start_hour > c
    · rw [if_pos hgap]
      refine ⟨rfl, le_of_lt hgap, rfl, h2, ih e.end_hour h4 h3⟩
    · rw [if_neg hgap]
      rw [List.nil_append]
      exact ⟨le_antisymm (not_lt.mp hgap) h1, h2, ih e.end_hour h4 h3⟩

theorem build_one_day_summary_periods (cfg : HOSConfig)
    (ps : List DutyPeriod) (t : ℚ) (d : ℕ) :
    (build_one_day_summary cfg ps t d).duty_periods =
      clipped_list (floor24 t + 24 * ((d : ℚ) - 1))
        (floor24 t + 24 * ((d : ℚ) - 1) + 24) ps := by
  unfold build_one_day_summary
  dsimp only
  split_ifs with h
  · rw [foldl_add_period_periods]
    simp
  · rw [foldl_add_period_periods]
    simp

/-- C6: for every completed simulation run and every produced daily
summary, the gap-filled rendered entry list tiles the day exactly: the
first entry starts at hour 0.0, consecutive entries abut (each start hour
equals the previous end hour, so the sorted entries are mutually
non-overlapping), every entry has nonnegative extent, and the last entry
ends at hour 24.0; an empty duty-period list renders as the single
full-day off-duty entry. -/
theorem C6_rendered_entries_tile_day (i : TripInput) (fuel : ℕ)
    (plan : HOSPlan)
    (hrun : calculate_trip_plan defaultConfig i fuel = some plan) :
    ∀ s ∈ plan.daily_summaries,
      tiles_from 0 (generate_daily_log_entries s) ∧
      (s.duty_periods = [] →
        generate_daily_log_entries s = [full_day_off_entry]) := by
  rw [calculate_trip_plan, Option.map_eq_some'] at hrun
  obtain ⟨st', hloop, hplan⟩ := hrun
  have hchain : ChainInv i (append_dropoff defaultConfig i st') :=
    append_dropoff_chain i st' (run_loop_chain i fuel st' hloop).1
  have hsum : plan.daily_summaries = build_daily_summaries defaultConfig
      (append_dropoff defaultConfig i st').all_duty_periods i.departure_time
      (append_dropoff defaultConfig i st').current_day_number := by
    rw [← hplan]
  intro s hs
  rw [hsum, build_daily_summaries] at hs
  obtain ⟨k, _, hk⟩ := List.mem_map.mp hs
  set ps := (append_dropoff defaultConfig i st').all_duty_periods with hps
  -- The day window is anchored at an integer multiple of 24 hours.
  set K : ℤ := ⌊i.departure_time / 24⌋ + (k : ℤ) with hK
  have hA : floor24 i.departure_time + 24 * (((k + 1 : ℕ) : ℚ) - 1) =
      24 * (K : ℚ) := by
    rw [hK, floor24]
    push_cast
    ring
  have hperiods : s.duty_periods =
      clipped_list (24 * (K : ℚ)) (24 * (K : ℚ) + 24) ps := by
    rw [← hk, build_one_day_summary_periods, hA]
  have hday : day_chain (24 * (K : ℚ) + 24) (24 * (K : ℚ))
      (clipped_list (24 * (K : ℚ)) (24 * (K : ℚ) + 24) ps) :=
    clipped_list_day_chain _ _ ps i.departure_time _ hchain.1
      (le_max_right _ _) le_rfl
  have hents : ents_ok 0 (s.duty_periods.map create_log_entry) := by
    rw [hperiods]
    have := day_chain_entries K
      (clipped_list (24 * (K : ℚ)) (24 * (K : ℚ) + 24) ps)
      (24 * (K : ℚ)) le_rfl hday
    rwa [clock_hour_day_boundary, round2_zero] at this
  have hsorted : (s.duty_periods.map create_log_entry).Sorted
      (fun a b : ELDLogEntry => a.start_hour ≤ b.start_hour) :=
    ents_ok_sorted _ 0 hents
  have hsort_eq : List.insertionSort
      (fun a b : ELDLogEntry => a.start_hour ≤ b.start_hour)
      (s.duty_periods.map create_log_entry) =
      s.duty_periods.map create_log_entry :=
    List.Sorted.insertionSort_eq hsorted
  constructor
  · rw [generate_daily_log_entries, hsort_eq]
    cases hmap : s.duty_periods.map create_log_entry with
    | nil =>
      show tiles_from 0 [full_day_off_entry]
      refine ⟨rfl, show (0:ℚ) ≤ 24 by norm_num, ?_⟩
      show (24 : ℚ) = 24
      rfl
    | cons e r =>
      show tiles_from 0 (fill_gaps_walk 0 (e :: r))
      rw [← hmap]
      exact fill_gaps_walk_tiles _ 0 hents (by norm_num)
  · intro hempty
    rw [generate_daily_log_entries, hempty]
    rfl

/-- Witness for C6 at the zero-distance input. -/
theorem C6_rendered_entries_tile_day_witness :
    ∃ plan, calculate_trip_plan defaultConfig zeroDistInput 0 = some plan ∧
      ∀ s ∈ plan.daily_summaries,
        tiles_from 0 (generate_daily_log_entries s) := by
  have hsome : (calculate_trip_plan defaultConfig zeroDistInput 0).isSome :=
    by with_unfolding_all decide
  obtain ⟨plan, hplan⟩ := Option.isSome_iff_exists.mp hsome
  exact ⟨plan, hplan, fun s hs =>
    (C6_rendered_entries_tile_day zeroDistInput 0 plan hplan s hs).1⟩
